import Mathlib

/-!
Verification of the HealthGeneratorApp icon-generation scripts
(`create_icons.py`, `create_solid_icons.py`, `create_beautiful_icons.py`).

The three scripts are shallowly embedded below.  Python integer arithmetic
is modelled by `ℤ` (all divisions in the sources act on nonnegative
operands, where Python's `//` agrees with `ℤ` division); float arithmetic
is idealised by `ℝ` (for trigonometric shapes) or `ℚ` (for the purely
rational gradient computations); `int(...)` truncation is `pyInt`.
A rendered image is a pixel-query function: pixel `(x, y)` receives the
colour of the last drawing operation whose region contains the point
`(x, y)`, mirroring the painter order of the source.  Filled polygons use
the even-odd (ray parity) rule; PIL ellipses with square bounding boxes
are discs; PIL draw operations silently clip to the canvas, so regions
are simply defined on all of `ℝ²` and only pixels inside the canvas are
queried.  `PIL.Image.new` rejects negative dimensions (and accepts zero),
which is modelled by `imageNew`.  An ink given as an RGBA tuple to a
drawing call on an RGB image is used without blending (`inkRGB`).
-/

namespace HealthIcons

/-- RGB colour triple (8-bit channels, as unbounded integers). -/
structure RGB where
  r : ℤ
  g : ℤ
  b : ℤ
deriving DecidableEq, Repr

/-- Image pixel modes (PIL `'RGB'`, `'RGBA'`, `'L'`). -/
inductive PixMode where
  | RGB
  | RGBA
  | L
deriving DecidableEq, Repr

/-- A rendered raster image: dimensions, mode and the pixel buffer. -/
structure Icon where
  width : ℕ
  height : ℕ
  mode : PixMode
  px : ℕ → ℕ → RGB

/-- Whether the image carries an alpha channel (only RGBA does). -/
def Icon.hasAlpha (ic : Icon) : Bool :=
  match ic.mode with
  | .RGBA => true
  | _ => false

/-- Python `int(...)`: truncation toward zero. -/
def pyInt (q : ℚ) : ℤ := if 0 ≤ q then ⌊q⌋ else ⌈q⌉

/-- The icon-size catalog fixed by the specification. -/
def catalog : List ℕ := [20, 29, 40, 58, 60, 76, 80, 87, 120, 152, 154, 167, 180, 1024]

/-- The gradient channel formula as worded by the spec:
`channel = start*(1-y/size) + end*(y/size)`, truncated to an integer. -/
def specChannel (a b : ℚ) (size y : ℕ) : ℤ :=
  pyInt (a * (1 - (y : ℚ) / (size : ℚ)) + b * ((y : ℚ) / (size : ℚ)))

/-- `PIL.Image.new` dimension validation: negative sizes raise
`ValueError("Width and height must be >= 0")`; zero is accepted. -/
def imageNew (w h : ℤ) : Except String Unit :=
  if w < 0 ∨ h < 0 then .error "Width and height must be >= 0" else .ok ()

/- ### Planar regions used by the drawing calls -/

/-- Disc of radius `rad` about `c` (a PIL ellipse with a square bbox). -/
def inDisc (c : ℝ × ℝ) (rad : ℝ) (p : ℝ × ℝ) : Prop :=
  (p.1 - c.1) ^ 2 + (p.2 - c.2) ^ 2 ≤ rad ^ 2

/-- Axis-aligned filled rectangle `[x0, y0, x1, y1]` (inclusive bounds). -/
def inRect (x0 y0 x1 y1 : ℝ) (p : ℝ × ℝ) : Prop :=
  x0 ≤ p.1 ∧ p.1 ≤ x1 ∧ y0 ≤ p.2 ∧ p.2 ≤ y1

/-- `rounded_rectangle([0, 0, size, size], rad)`: the central cross of the
square together with the four corner discs. -/
def inRoundedSquare (size rad : ℝ) (p : ℝ × ℝ) : Prop :=
  0 ≤ p.1 ∧ p.1 ≤ size ∧ 0 ≤ p.2 ∧ p.2 ≤ size ∧
    ((rad ≤ p.1 ∧ p.1 ≤ size - rad) ∨ (rad ≤ p.2 ∧ p.2 ≤ size - rad) ∨
      inDisc (rad, rad) rad p ∨ inDisc (size - rad, rad) rad p ∨
      inDisc (rad, size - rad) rad p ∨ inDisc (size - rad, size - rad) rad p)

/-- Edge `a→b` straddles the horizontal line at height `py`
(half-open convention, so shared vertices are counted once). -/
def straddles (py : ℝ) (a b : ℝ × ℝ) : Prop :=
  (a.2 ≤ py ∧ py < b.2) ∨ (b.2 ≤ py ∧ py < a.2)

/-- Abscissa at which edge `a→b` meets the horizontal through `p`. -/
noncomputable def xCross (p a b : ℝ × ℝ) : ℝ :=
  a.1 + (p.2 - a.2) * (b.1 - a.1) / (b.2 - a.2)

/-- The rightward ray from `p` crosses edge `a→b`. -/
def rayHits (p a b : ℝ × ℝ) : Prop :=
  straddles p.2 a b ∧ p.1 < xCross p a b

open Classical in
/-- Indices of the edges of the closed polygon `v 0, …, v (n-1)` crossed
by the rightward ray from `p`. -/
noncomputable def crossSet (v : ℕ → ℝ × ℝ) (n : ℕ) (p : ℝ × ℝ) : Finset ℕ :=
  (Finset.range n).filter fun i => rayHits p (v i) (v ((i + 1) % n))

/-- Even-odd filled-polygon membership (ray-parity rule). -/
def inPolygon (v : ℕ → ℝ × ℝ) (n : ℕ) (p : ℝ × ℝ) : Prop :=
  Odd (crossSet v n p).card

/- ### The parametric heart curve (common to two of the scripts) -/

/-- `x = 16 sin³ t`. -/
noncomputable def heartXc (s : ℝ) : ℝ := 16 * Real.sin s ^ 3

/-- `y = -(13 cos t - 5 cos 2t - 2 cos 3t - cos 4t)`. -/
noncomputable def heartYc (s : ℝ) : ℝ :=
  -(13 * Real.cos s - 5 * Real.cos (2 * s) - 2 * Real.cos (3 * s) - Real.cos (4 * s))

/-- `heartYc` as a quartic in `c = cos t` (proved below); the algebra layer
works with this polynomial. -/
def heartPoly (c : ℝ) : ℝ := 8 * c ^ 4 + 8 * c ^ 3 + 2 * c ^ 2 - 19 * c - 4

/- ## create_solid_icons.py -/

namespace SolidIcons

/-- Gradient row colour: `int(100(1-p)+50p), int(150(1-p)+100p), int(200(1-p)+150p)`
with `p = y/size`. -/
def gradRow (S y : ℕ) : RGB :=
  { r := pyInt (100 * (1 - (y : ℚ) / (S : ℚ)) + 50 * ((y : ℚ) / (S : ℚ)))
    g := pyInt (150 * (1 - (y : ℚ) / (S : ℚ)) + 100 * ((y : ℚ) / (S : ℚ)))
    b := pyInt (200 * (1 - (y : ℚ) / (S : ℚ)) + 150 * ((y : ℚ) / (S : ℚ))) }

/-- Channel-wise average colour of gradient row `y`. -/
def rowAvg (S y : ℕ) : ℚ × ℚ × ℚ :=
  ((∑ _x ∈ Finset.range S, ((gradRow S y).r : ℚ)) / S,
   (∑ _x ∈ Finset.range S, ((gradRow S y).g : ℚ)) / S,
   (∑ _x ∈ Finset.range S, ((gradRow S y).b : ℚ)) / S)

def center_x (S : ℕ) : ℤ := (S : ℤ) / 2

def center_y (S : ℕ) : ℤ := (S : ℤ) / 2

def cross_size (S : ℕ) : ℤ := (S : ℤ) / 3

def cross_width (S : ℕ) : ℤ := max 4 ((S : ℤ) / 20)

/-- Pixel query for `create_solid_app_icon` (painter order: gradient rows,
horizontal cross bar, vertical cross bar). -/
def px (S x y : ℕ) : RGB :=
  let xi : ℤ := (x : ℤ)
  let yi : ℤ := (y : ℤ)
  if center_x S - cross_width S / 2 ≤ xi ∧ xi ≤ center_x S + cross_width S / 2 ∧
      center_y S - cross_size S / 2 ≤ yi ∧ yi ≤ center_y S + cross_size S / 2 then
    ⟨255, 255, 255⟩
  else if center_x S - cross_size S / 2 ≤ xi ∧ xi ≤ center_x S + cross_size S / 2 ∧
      center_y S - cross_width S / 2 ≤ yi ∧ yi ≤ center_y S + cross_width S / 2 then
    ⟨255, 255, 255⟩
  else gradRow S y

/-- The rendered solid icon. -/
def icon (S : ℕ) : Icon := ⟨S, S, .RGB, px S⟩

/-- `create_solid_app_icon` up to (excluded) file output: creating the
canvas validates the dimensions; every drawing call clips silently. -/
def render (size : ℤ) : Except String Icon :=
  match imageNew size size with
  | .error e => .error e
  | .ok _ => .ok (icon size.toNat)

end SolidIcons

/- ## create_icons.py -/

namespace CreateIcons

/-- Gradient row colour: `52→34, 199→139, 89→34`. -/
def gradRow (S y : ℕ) : RGB :=
  { r := pyInt (52 * (1 - (y : ℚ) / (S : ℚ)) + 34 * ((y : ℚ) / (S : ℚ)))
    g := pyInt (199 * (1 - (y : ℚ) / (S : ℚ)) + 139 * ((y : ℚ) / (S : ℚ)))
    b := pyInt (89 * (1 - (y : ℚ) / (S : ℚ)) + 34 * ((y : ℚ) / (S : ℚ))) }

/-- Channel-wise average colour of gradient row `y`. -/
def rowAvg (S y : ℕ) : ℚ × ℚ × ℚ :=
  ((∑ _x ∈ Finset.range S, ((gradRow S y).r : ℚ)) / S,
   (∑ _x ∈ Finset.range S, ((gradRow S y).g : ℚ)) / S,
   (∑ _x ∈ Finset.range S, ((gradRow S y).b : ℚ)) / S)

def center_x (S : ℕ) : ℤ := (S : ℤ) / 2

def center_y (S : ℕ) : ℤ := (S : ℤ) / 2

def heart_size (S : ℕ) : ℤ := (S : ℤ) / 3

def corner_radius (S : ℕ) : ℤ := (S : ℤ) / 6

def plus_size (S : ℕ) : ℤ := (S : ℤ) / 8

def plus_thickness (S : ℕ) : ℤ := max 2 ((S : ℤ) / 40)

def plus_x (S : ℕ) : ℤ := center_x S + heart_size S / 2 + plus_size S / 2

def plus_y (S : ℕ) : ℤ := center_y S - heart_size S / 2 - plus_size S / 2

/-- `math.radians(5*i)` for the sample loop `range(0, 360, 5)`. -/
noncomputable def t (i : ℕ) : ℝ := (5 * i : ℕ) * Real.pi / 180

/-- Heart polygon vertex `i` (72 vertices): curve point scaled by
`heart_size/32` and translated to the canvas centre. -/
noncomputable def heartPt (S i : ℕ) : ℝ × ℝ :=
  ((center_x S : ℝ) + heartXc (t i) * (heart_size S : ℝ) / 32,
   (center_y S : ℝ) + heartYc (t i) * (heart_size S : ℝ) / 32)

/-- Shadow polygon vertex: heart vertex shifted by `(+2, +2)`. -/
noncomputable def shadowPt (S i : ℕ) : ℝ × ℝ :=
  ((heartPt S i).1 + 2, (heartPt S i).2 + 2)

open Classical in
/-- Pixel query for `create_app_icon` (painter order: gradient, rounded
mask paste over white, shadow, heart, plus-circle, two plus bars). -/
noncomputable def px (S x y : ℕ) : RGB :=
  let p : ℝ × ℝ := ((x : ℝ), (y : ℝ))
  let pX : ℝ := (plus_x S : ℝ)
  let pY : ℝ := (plus_y S : ℝ)
  let pS : ℝ := (plus_size S : ℝ)
  let pT2 : ℝ := ((plus_thickness S / 2 : ℤ) : ℝ)
  if inRect (pX - pS + 2) (pY - pT2) (pX + pS - 2) (pY + pT2) p then ⟨52, 199, 89⟩
  else if inRect (pX - pT2) (pY - pS + 2) (pX + pT2) (pY + pS - 2) p then ⟨52, 199, 89⟩
  else if inDisc (pX, pY) pS p then ⟨255, 255, 255⟩
  else if inPolygon (heartPt S) 72 p then ⟨255, 255, 255⟩
  else if inPolygon (shadowPt S) 72 p then ⟨0, 0, 0⟩
  else if inRoundedSquare (S : ℝ) (corner_radius S : ℝ) p then gradRow S y
  else ⟨255, 255, 255⟩

/-- The rendered icon. -/
noncomputable def icon (S : ℕ) : Icon := ⟨S, S, .RGB, px S⟩

/-- `create_app_icon` up to (excluded) file output. -/
noncomputable def render (size : ℤ) : Except String Icon :=
  match imageNew size size with
  | .error e => .error e
  | .ok _ => .ok (icon size.toNat)

/-- Minimum of the heart polygon abscissas. -/
noncomputable def bbXmin (S : ℕ) : ℝ :=
  (Finset.range 72).inf' ⟨0, Finset.mem_range.mpr (by norm_num)⟩ fun i => (heartPt S i).1

/-- Maximum of the heart polygon abscissas. -/
noncomputable def bbXmax (S : ℕ) : ℝ :=
  (Finset.range 72).sup' ⟨0, Finset.mem_range.mpr (by norm_num)⟩ fun i => (heartPt S i).1

/-- Minimum of the heart polygon ordinates. -/
noncomputable def bbYmin (S : ℕ) : ℝ :=
  (Finset.range 72).inf' ⟨0, Finset.mem_range.mpr (by norm_num)⟩ fun i => (heartPt S i).2

/-- Maximum of the heart polygon ordinates. -/
noncomputable def bbYmax (S : ℕ) : ℝ :=
  (Finset.range 72).sup' ⟨0, Finset.mem_range.mpr (by norm_num)⟩ fun i => (heartPt S i).2

/-- x-coordinate of the centre of the glyph bounding box. -/
noncomputable def bboxCx (S : ℕ) : ℝ := (bbXmin S + bbXmax S) / 2

/-- y-coordinate of the centre of the glyph bounding box. -/
noncomputable def bboxCy (S : ℕ) : ℝ := (bbYmin S + bbYmax S) / 2

end CreateIcons

/- ## create_beautiful_icons.py -/

namespace BeautifulIcons

/-- Gradient row colour: `int(255(1-0.1p)), int(255(1-0.05p)), int(255(1-0.1p))`. -/
def gradRow (S y : ℕ) : RGB :=
  { r := pyInt (255 * (1 - (y : ℚ) / (S : ℚ) * (1 / 10)))
    g := pyInt (255 * (1 - (y : ℚ) / (S : ℚ) * (1 / 20)))
    b := pyInt (255 * (1 - (y : ℚ) / (S : ℚ) * (1 / 10))) }

def center_x (S : ℕ) : ℤ := (S : ℤ) / 2

def center_y (S : ℕ) : ℤ := (S : ℤ) / 2

def heart_size (S : ℕ) : ℤ := (S : ℤ) / 3

def corner_radius (S : ℕ) : ℤ := (S : ℤ) / 8

def shadow_offset (S : ℕ) : ℤ := max 2 ((S : ℤ) / 200)

def gear_size (S : ℕ) : ℤ := (S : ℤ) / 6

def gear_x (S : ℕ) : ℤ := center_x S + heart_size S / 2 + gear_size S / 2

def gear_y (S : ℕ) : ℤ := center_y S - heart_size S / 2 - gear_size S / 2

def gear_radius (S : ℕ) : ℤ := gear_size S / 2

def inner_radius (S : ℕ) : ℤ := gear_radius S / 2

def plus_size (S : ℕ) : ℤ := (S : ℤ) / 8

def plus_x (S : ℕ) : ℤ := center_x S + heart_size S / 2

def plus_y (S : ℕ) : ℤ := center_y S + heart_size S / 2

def plus_thickness (S : ℕ) : ℤ := max 3 ((S : ℤ) / 60)

def plus_bg_radius (S : ℕ) : ℤ := plus_size S / 2 + 2

def dot_radius (S : ℕ) : ℤ := max 2 ((S : ℤ) / 100)

def dot_distance (S : ℕ) : ℤ := heart_size S + 20

/-- iOS green, the configured heart colour. -/
def heart_color : RGB := ⟨52, 199, 89⟩

/-- The RGBA ink passed for the data dots: heart colour with a fourth
component `180`. -/
def dot_fill : ℤ × ℤ × ℤ × ℤ := (52, 199, 89, 180)

/-- PIL ink resolution on an RGB image: the RGB part of an RGBA tuple is
used as-is (the alpha component is ignored; no blending happens). -/
def inkRGB (c : ℤ × ℤ × ℤ × ℤ) : RGB := ⟨c.1, c.2.1, c.2.2.1⟩

/-- `t_rad = (5*i)/100` for the sample loop `range(0, 628, 5)` (126 points). -/
noncomputable def t (i : ℕ) : ℝ := (5 * i : ℕ) / 100

/-- Heart polygon vertex `i` (126 vertices), scale `heart_size/20`. -/
noncomputable def heartPt (S i : ℕ) : ℝ × ℝ :=
  ((center_x S : ℝ) + heartXc (t i) * ((heart_size S : ℝ) / 20),
   (center_y S : ℝ) + heartYc (t i) * ((heart_size S : ℝ) / 20))

/-- Shadow polygon vertex: heart vertex shifted by the shadow offset. -/
noncomputable def shadowPt (S i : ℕ) : ℝ × ℝ :=
  ((heartPt S i).1 + (shadow_offset S : ℝ), (heartPt S i).2 + (shadow_offset S : ℝ))

/-- Highlight polygon vertex (first `126 // 3 = 42` heart points shifted by
`-shadow_offset // 2` in both coordinates). -/
noncomputable def highlightPt (S i : ℕ) : ℝ × ℝ :=
  ((heartPt S i).1 - ((shadow_offset S / 2 : ℤ) : ℝ),
   (heartPt S i).2 - ((shadow_offset S / 2 : ℤ) : ℝ))

/-- Gear-tooth angle `2πi/8`. -/
noncomputable def toothAngle (i : ℕ) : ℝ := 2 * Real.pi * i / 8

/-- Vertex `j ∈ {0,1,2}` of tooth `i`: outer point at radius
`gear_radius + 3`, inner points at `gear_radius`, angles `±0.2`. -/
noncomputable def toothPt (S i j : ℕ) : ℝ × ℝ :=
  if j = 0 then
    ((gear_x S : ℝ) + ((gear_radius S : ℝ) + 3) * Real.cos (toothAngle i),
     (gear_y S : ℝ) + ((gear_radius S : ℝ) + 3) * Real.sin (toothAngle i))
  else if j = 1 then
    ((gear_x S : ℝ) + (gear_radius S : ℝ) * Real.cos (toothAngle i - 0.2),
     (gear_y S : ℝ) + (gear_radius S : ℝ) * Real.sin (toothAngle i - 0.2))
  else
    ((gear_x S : ℝ) + (gear_radius S : ℝ) * Real.cos (toothAngle i + 0.2),
     (gear_y S : ℝ) + (gear_radius S : ℝ) * Real.sin (toothAngle i + 0.2))

/-- Data-dot angle `2πk/6`. -/
noncomputable def dotAngle (k : ℕ) : ℝ := 2 * Real.pi * k / 6

/-- Centre of data dot `k`. -/
noncomputable def dotCenter (S k : ℕ) : ℝ × ℝ :=
  ((center_x S : ℝ) + (dot_distance S : ℝ) * Real.cos (dotAngle k),
   (center_y S : ℝ) + (dot_distance S : ℝ) * Real.sin (dotAngle k))

open Classical in
/-- Pixel query for `create_beautiful_app_icon` (painter order: gradient,
rounded mask paste over light grey, shadow, heart, highlight, gear circle,
8 teeth, inner gear circle, plus circle, two plus bars, 6 data dots). -/
noncomputable def px (S x y : ℕ) : RGB :=
  let p : ℝ × ℝ := ((x : ℝ), (y : ℝ))
  let pX : ℝ := (plus_x S : ℝ)
  let pY : ℝ := (plus_y S : ℝ)
  let pS2 : ℝ := ((plus_size S / 2 : ℤ) : ℝ)
  let pT2 : ℝ := ((plus_thickness S / 2 : ℤ) : ℝ)
  let gC : ℝ × ℝ := ((gear_x S : ℝ), (gear_y S : ℝ))
  if ∃ k, k < 6 ∧ inDisc (dotCenter S k) (dot_radius S : ℝ) p then inkRGB dot_fill
  else if inRect (pX - pT2) (pY - pS2) (pX + pT2) (pY + pS2) p then heart_color
  else if inRect (pX - pS2) (pY - pT2) (pX + pS2) (pY + pT2) p then heart_color
  else if inDisc (pX, pY) (plus_bg_radius S : ℝ) p then ⟨255, 255, 255⟩
  else if inDisc gC (inner_radius S : ℝ) p then ⟨150, 150, 150⟩
  else if ∃ i, i < 8 ∧ inPolygon (toothPt S i) 3 p then ⟨100, 100, 100⟩
  else if inDisc gC (gear_radius S : ℝ) p then ⟨255, 255, 255⟩
  else if inPolygon (highlightPt S) 42 p then ⟨82, 229, 119⟩
  else if inPolygon (heartPt S) 126 p then heart_color
  else if inPolygon (shadowPt S) 126 p then ⟨200, 200, 200⟩
  else if inRoundedSquare (S : ℝ) (corner_radius S : ℝ) p then gradRow S y
  else ⟨248, 249, 250⟩

/-- The rendered icon. -/
noncomputable def icon (S : ℕ) : Icon := ⟨S, S, .RGB, px S⟩

/-- `create_beautiful_app_icon` up to (excluded) file output. -/
noncomputable def render (size : ℤ) : Except String Icon :=
  match imageNew size size with
  | .error e => .error e
  | .ok _ => .ok (icon size.toNat)

/-- Minimum of the heart polygon abscissas. -/
noncomputable def bbXmin (S : ℕ) : ℝ :=
  (Finset.range 126).inf' ⟨0, Finset.mem_range.mpr (by norm_num)⟩ fun i => (heartPt S i).1

/-- Maximum of the heart polygon abscissas. -/
noncomputable def bbXmax (S : ℕ) : ℝ :=
  (Finset.range 126).sup' ⟨0, Finset.mem_range.mpr (by norm_num)⟩ fun i => (heartPt S i).1

/-- Minimum of the heart polygon ordinates. -/
noncomputable def bbYmin (S : ℕ) : ℝ :=
  (Finset.range 126).inf' ⟨0, Finset.mem_range.mpr (by norm_num)⟩ fun i => (heartPt S i).2

/-- Maximum of the heart polygon ordinates. -/
noncomputable def bbYmax (S : ℕ) : ℝ :=
  (Finset.range 126).sup' ⟨0, Finset.mem_range.mpr (by norm_num)⟩ fun i => (heartPt S i).2

/-- x-coordinate of the centre of the glyph bounding box. -/
noncomputable def bboxCx (S : ℕ) : ℝ := (bbXmin S + bbXmax S) / 2

/-- y-coordinate of the centre of the glyph bounding box. -/
noncomputable def bboxCy (S : ℕ) : ℝ := (bbYmin S + bbYmax S) / 2

end BeautifulIcons

/- ## Statements of the claims that the code falsifies -/

/-- `|a - b| ≤ 1` for a rational average against an integer target. -/
abbrev withinOne (a : ℚ) (b : ℤ) : Prop := |a - (b : ℚ)| ≤ 1

/-- Claim C3 as stated: on every catalog size, top- and bottom-row average
colours of the rendered gradients match the configured endpoint colours
within one unit per channel. -/
def claimC3 : Prop :=
  ∀ S ∈ catalog,
    (withinOne (CreateIcons.rowAvg S 0).1 52 ∧
     withinOne (CreateIcons.rowAvg S 0).2.1 199 ∧
     withinOne (CreateIcons.rowAvg S 0).2.2 89 ∧
     withinOne (CreateIcons.rowAvg S (S - 1)).1 34 ∧
     withinOne (CreateIcons.rowAvg S (S - 1)).2.1 139 ∧
     withinOne (CreateIcons.rowAvg S (S - 1)).2.2 34) ∧
    (withinOne (SolidIcons.rowAvg S 0).1 100 ∧
     withinOne (SolidIcons.rowAvg S 0).2.1 150 ∧
     withinOne (SolidIcons.rowAvg S 0).2.2 200 ∧
     withinOne (SolidIcons.rowAvg S (S - 1)).1 50 ∧
     withinOne (SolidIcons.rowAvg S (S - 1)).2.1 100 ∧
     withinOne (SolidIcons.rowAvg S (S - 1)).2.2 150)

/-- Claim C4 as stated: on every catalog size and for both heart-drawing
styles, the bounding-box centre of the heart polygon is `(S/2, S/2)`
within one pixel in each coordinate. -/
def claimC4 : Prop :=
  ∀ S ∈ catalog,
    (|BeautifulIcons.bboxCx S - (S : ℝ) / 2| ≤ 1 ∧
     |BeautifulIcons.bboxCy S - (S : ℝ) / 2| ≤ 1) ∧
    (|CreateIcons.bboxCx S - (S : ℝ) / 2| ≤ 1 ∧
     |CreateIcons.bboxCy S - (S : ℝ) / 2| ≤ 1)

/-- Claim C5 as stated: on every catalog size, for both rounded-corner
styles, all four corner pixels show the flat background fill. -/
def claimC5 : Prop :=
  ∀ S ∈ catalog,
    (BeautifulIcons.px S 0 0 = ⟨248, 249, 250⟩ ∧
     BeautifulIcons.px S (S - 1) 0 = ⟨248, 249, 250⟩ ∧
     BeautifulIcons.px S 0 (S - 1) = ⟨248, 249, 250⟩ ∧
     BeautifulIcons.px S (S - 1) (S - 1) = ⟨248, 249, 250⟩) ∧
    (CreateIcons.px S 0 0 = ⟨255, 255, 255⟩ ∧
     CreateIcons.px S (S - 1) 0 = ⟨255, 255, 255⟩ ∧
     CreateIcons.px S 0 (S - 1) = ⟨255, 255, 255⟩ ∧
     CreateIcons.px S (S - 1) (S - 1) = ⟨255, 255, 255⟩)

/-- Claim C7 as stated: rendering fails on every non-positive size and
succeeds on every positive size. -/
def claimC7 : Prop :=
  (∀ z : ℤ, z ≤ 0 → ∃ e, CreateIcons.render z = .error e) ∧
  (∀ z : ℤ, z ≤ 0 → ∃ e, SolidIcons.render z = .error e) ∧
  (∀ z : ℤ, 0 < z → ∃ ic, CreateIcons.render z = .ok ic) ∧
  (∀ z : ℤ, 0 < z → ∃ ic, SolidIcons.render z = .ok ic)

/- ## Theorems -/

/-- Averaging a constant row yields the constant. -/
theorem rowAvgConst (S : ℕ) (hS : 0 < S) (c : ℚ) :
    (∑ _x ∈ Finset.range S, c) / (S : ℚ) = c := by
  have hne : (S : ℚ) ≠ 0 := Nat.cast_ne_zero.mpr hS.ne'
  rw [Finset.sum_const, Finset.card_range, nsmul_eq_mul]
  exact mul_div_cancel_left₀ c hne

/-- A gradient row of `create_icons` is uniform, so its average is the row
colour. -/
theorem CreateIcons.rowAvg_spec (S y : ℕ) (hS : 0 < S) :
    CreateIcons.rowAvg S y =
      (((CreateIcons.gradRow S y).r : ℚ), ((CreateIcons.gradRow S y).g : ℚ),
        ((CreateIcons.gradRow S y).b : ℚ)) := by
  unfold CreateIcons.rowAvg
  rw [rowAvgConst S hS, rowAvgConst S hS, rowAvgConst S hS]

/-- A gradient row of `create_solid_icons` is uniform, so its average is
the row colour. -/
theorem SolidIcons.rowAvg_spec_solid (S y : ℕ) (hS : 0 < S) :
    SolidIcons.rowAvg S y =
      (((SolidIcons.gradRow S y).r : ℚ), ((SolidIcons.gradRow S y).g : ℚ),
        ((SolidIcons.gradRow S y).b : ℚ)) := by
  unfold SolidIcons.rowAvg
  rw [rowAvgConst S hS, rowAvgConst S hS, rowAvgConst S hS]

/-- For non-negative sizes the `create_icons` pipeline succeeds. -/
theorem CreateIcons.render_ok (z : ℤ) (hz : ¬z < 0) :
    CreateIcons.render z = .ok (CreateIcons.icon z.toNat) := by
  unfold CreateIcons.render
  rw [show imageNew z z = .ok () from by simp [imageNew, hz]]

/-- For non-negative sizes the `create_solid_icons` pipeline succeeds. -/
theorem SolidIcons.render_ok_solid (z : ℤ) (hz : ¬z < 0) :
    SolidIcons.render z = .ok (SolidIcons.icon z.toNat) := by
  unfold SolidIcons.render
  rw [show imageNew z z = .ok () from by simp [imageNew, hz]]

/-- For non-negative sizes the `create_beautiful_icons` pipeline succeeds. -/
theorem BeautifulIcons.render_ok_beaut (z : ℤ) (hz : ¬z < 0) :
    BeautifulIcons.render z = .ok (BeautifulIcons.icon z.toNat) := by
  unfold BeautifulIcons.render
  rw [show imageNew z z = .ok () from by simp [imageNew, hz]]

/-- C1: for every size S in the catalog, each of the three render functions
produces an image that is exactly S by S pixels in RGB mode with no alpha
channel. -/
theorem claim_C1_catalog_dimensions (S : ℕ) (hS : S ∈ catalog) :
    ((BeautifulIcons.icon S).width = S ∧ (BeautifulIcons.icon S).height = S ∧
      (BeautifulIcons.icon S).mode = .RGB ∧ (BeautifulIcons.icon S).hasAlpha = false) ∧
    ((CreateIcons.icon S).width = S ∧ (CreateIcons.icon S).height = S ∧
      (CreateIcons.icon S).mode = .RGB ∧ (CreateIcons.icon S).hasAlpha = false) ∧
    ((SolidIcons.icon S).width = S ∧ (SolidIcons.icon S).height = S ∧
      (SolidIcons.icon S).mode = .RGB ∧ (SolidIcons.icon S).hasAlpha = false) :=
  ⟨⟨rfl, rfl, rfl, rfl⟩, ⟨rfl, rfl, rfl, rfl⟩, ⟨rfl, rfl, rfl, rfl⟩⟩

/-- Witness for C1 at the catalog size 20. -/
theorem claim_C1_catalog_dimensions_witness :
    20 ∈ catalog ∧ (BeautifulIcons.icon 20).width = 20 :=
  ⟨by decide, (claim_C1_catalog_dimensions 20 (by decide)).1.1⟩

/-- C2: for every positive size and row, each gradient channel equals
`start*(1-y/size) + end*(y/size)` truncated to an integer, with the
per-style endpoint values (`create_icons`: (52,199,89)→(34,139,34);
`create_solid_icons`: (100,150,200)→(50,100,150); `create_beautiful_icons`:
(255,255,255)→(229.5, 242.25, 229.5)). -/
theorem claim_C2_gradient_formula (S y : ℕ) (hS : 0 < S) (hy : y < S) :
    (CreateIcons.gradRow S y).r = specChannel 52 34 S y ∧
    (CreateIcons.gradRow S y).g = specChannel 199 139 S y ∧
    (CreateIcons.gradRow S y).b = specChannel 89 34 S y ∧
    (SolidIcons.gradRow S y).r = specChannel 100 50 S y ∧
    (SolidIcons.gradRow S y).g = specChannel 150 100 S y ∧
    (SolidIcons.gradRow S y).b = specChannel 200 150 S y ∧
    (BeautifulIcons.gradRow S y).r = specChannel 255 (459 / 2) S y ∧
    (BeautifulIcons.gradRow S y).g = specChannel 255 (969 / 4) S y ∧
    (BeautifulIcons.gradRow S y).b = specChannel 255 (459 / 2) S y := by
  refine ⟨rfl, rfl, rfl, rfl, rfl, rfl, ?_, ?_, ?_⟩ <;>
    · show pyInt _ = pyInt _
      congr 1
      ring

/-- Witness for C2 at size 20, row 7. -/
theorem claim_C2_gradient_formula_witness :
    0 < 20 ∧ 7 < 20 ∧ (CreateIcons.gradRow 20 7).r = specChannel 52 34 20 7 :=
  ⟨by norm_num, by norm_num,
    (claim_C2_gradient_formula 20 7 (by norm_num) (by norm_num)).1⟩

/-- C6: rendering the same (size, style) twice yields identical raster
output; the pixel functions are deterministic in their input. -/
theorem claim_C6_deterministic (S₁ S₂ : ℕ) (h : S₁ = S₂) :
    BeautifulIcons.icon S₁ = BeautifulIcons.icon S₂ ∧
    CreateIcons.icon S₁ = CreateIcons.icon S₂ ∧
    SolidIcons.icon S₁ = SolidIcons.icon S₂ := by
  subst h
  exact ⟨rfl, rfl, rfl⟩

/-- Witness for C6 at size 120. -/
theorem claim_C6_deterministic_witness :
    (120 : ℕ) = 120 ∧ BeautifulIcons.icon 120 = BeautifulIcons.icon 120 :=
  ⟨rfl, (claim_C6_deterministic 120 120 rfl).1⟩

/-- C9: for every positive size, a pixel covered by one of the data dots
receives exactly the heart colour (52,199,89): the RGBA ink's alpha
component 180 is ignored on the RGB canvas, so no blending occurs. -/
theorem claim_C9_dots_solid (S x y : ℕ) (hS : 0 < S)
    (hdot : ∃ k, k < 6 ∧ inDisc (BeautifulIcons.dotCenter S k)
      ((BeautifulIcons.dot_radius S : ℝ)) ((x : ℝ), (y : ℝ))) :
    BeautifulIcons.px S x y = BeautifulIcons.heart_color ∧
    BeautifulIcons.inkRGB BeautifulIcons.dot_fill = BeautifulIcons.heart_color := by
  refine ⟨?_, rfl⟩
  simp only [BeautifulIcons.px]
  rw [if_pos hdot]
  rfl

/-- Witness for C9: size 120, pixel (118, 60) lies in dot 0. -/
theorem claim_C9_dots_solid_witness :
    0 < 120 ∧
    (∃ k, k < 6 ∧ inDisc (BeautifulIcons.dotCenter 120 k)
      ((BeautifulIcons.dot_radius 120 : ℝ)) (((118 : ℕ) : ℝ), ((60 : ℕ) : ℝ))) ∧
    BeautifulIcons.px 120 118 60 = BeautifulIcons.heart_color := by
  have hA : BeautifulIcons.dotAngle 0 = 0 := by
    unfold BeautifulIcons.dotAngle
    norm_num
  have hdot : ∃ k, k < 6 ∧ inDisc (BeautifulIcons.dotCenter 120 k)
      ((BeautifulIcons.dot_radius 120 : ℝ)) (((118 : ℕ) : ℝ), ((60 : ℕ) : ℝ)) := by
    refine ⟨0, by norm_num, ?_⟩
    unfold inDisc BeautifulIcons.dotCenter BeautifulIcons.dot_distance
      BeautifulIcons.dot_radius BeautifulIcons.heart_size BeautifulIcons.center_x
      BeautifulIcons.center_y
    rw [hA, Real.cos_zero, Real.sin_zero]
    norm_num
  exact ⟨by norm_num, hdot, (claim_C9_dots_solid 120 118 60 (by norm_num) hdot).1⟩

/-- C7 counterexample: the code contains no size validation; at size 0 the
render pipeline succeeds (PIL accepts 0×0 canvases), so it does not fail
on every non-positive size. -/
theorem claim_C7_counterexample : ¬claimC7 := by
  intro h
  obtain ⟨e, he⟩ := h.1 0 le_rfl
  norm_num [CreateIcons.render, imageNew] at he
  exact Except.noConfusion he

/-- C7 amended: negative sizes fail fast with the image library's
dimension validation error (not an `InvalidDimension` error raised by the
render logic itself); size 0 is accepted and renders an empty 0×0 canvas;
every positive size renders successfully. -/
theorem claim_C7_amended :
    (∀ z : ℤ, z < 0 →
      CreateIcons.render z = .error "Width and height must be >= 0" ∧
      SolidIcons.render z = .error "Width and height must be >= 0") ∧
    (∃ ic, CreateIcons.render 0 = .ok ic ∧ ic.width = 0 ∧ ic.height = 0) ∧
    (∃ ic, SolidIcons.render 0 = .ok ic ∧ ic.width = 0 ∧ ic.height = 0) ∧
    (∀ z : ℤ, 0 < z → ∃ ic, CreateIcons.render z = .ok ic ∧
      ic.width = z.toNat ∧ ic.height = z.toNat) ∧
    (∀ z : ℤ, 0 < z → ∃ ic, SolidIcons.render z = .ok ic ∧
      ic.width = z.toNat ∧ ic.height = z.toNat) := by
  refine ⟨?_, ?_, ?_, ?_, ?_⟩
  · intro z hz
    constructor <;> simp [CreateIcons.render, SolidIcons.render, imageNew, hz]
  · exact ⟨_, CreateIcons.render_ok 0 (by norm_num), rfl, rfl⟩
  · exact ⟨_, SolidIcons.render_ok_solid 0 (by norm_num), rfl, rfl⟩
  · intro z hz
    exact ⟨_, CreateIcons.render_ok z (by omega), rfl, rfl⟩
  · intro z hz
    exact ⟨_, SolidIcons.render_ok_solid z (by omega), rfl, rfl⟩


/-- Witness for the amended C7 at size -5. -/
theorem claim_C7_amended_witness :
    (-5 : ℤ) < 0 ∧ CreateIcons.render (-5) = .error "Width and height must be >= 0" :=
  ⟨by norm_num, (claim_C7_amended.1 (-5) (by norm_num)).1⟩

/-- C10: rendering is total for every positive size (the result has the
requested dimensions), even though some badge coordinates fall outside the
canvas: at size 20, data dot 0 is centred at x = 36 on a canvas whose
pixels end at x = 19, yet rendering succeeds — out-of-canvas shape parts
simply correspond to no pixel. -/
theorem claim_C10_total_clipped :
    (∀ z : ℤ, 0 < z → ∃ ic, BeautifulIcons.render z = .ok ic ∧
      ic.width = z.toNat ∧ ic.height = z.toNat) ∧
    ((BeautifulIcons.dotCenter 20 0).1 = 36 ∧ (20 : ℝ) ≤ 36) ∧
    (∃ ic, BeautifulIcons.render 20 = .ok ic) := by
  refine ⟨?_, ⟨?_, by norm_num⟩, ?_⟩
  · intro z hz
    exact ⟨_, BeautifulIcons.render_ok_beaut z (by omega), rfl, rfl⟩
  · have hA : BeautifulIcons.dotAngle 0 = 0 := by
      unfold BeautifulIcons.dotAngle
      norm_num
    unfold BeautifulIcons.dotCenter BeautifulIcons.dot_distance BeautifulIcons.heart_size
      BeautifulIcons.center_x
    rw [hA, Real.cos_zero]
    norm_num
  · exact ⟨_, BeautifulIcons.render_ok_beaut 20 (by norm_num)⟩

/-- Witness for C10 at size 20. -/
theorem claim_C10_total_clipped_witness :
    (0 : ℤ) < 20 ∧ ∃ ic, BeautifulIcons.render 20 = .ok ic ∧
      ic.width = (20 : ℤ).toNat ∧ ic.height = (20 : ℤ).toNat :=
  ⟨by norm_num, claim_C10_total_clipped.1 20 (by norm_num)⟩

/-- C3 counterexample: at catalog size 20 the bottom gradient row of
`create_icons` has green channel `int(199/20 + 139·19/20) = 142`, which
differs from the configured end value 139 by 3 > 1. -/
theorem claim_C3_counterexample : ¬claimC3 := by
  intro h
  have h20 := (h 20 (by decide)).1.2.2.2.2.1
  have hAvg : (CreateIcons.rowAvg 20 (20 - 1)).2.1 = ((CreateIcons.gradRow 20 19).g : ℚ) := by
    rw [show (20 - 1 : ℕ) = 19 from rfl, CreateIcons.rowAvg_spec 20 19 (by norm_num)]
  rw [hAvg] at h20
  refine absurd h20 ?_
  norm_num [CreateIcons.gradRow, pyInt, withinOne]

/-- C3 amended: the top-row averages equal the configured start colours
exactly; the bottom-row averages match the end colours within one unit per
channel for catalog sizes ≥ 40 (`create_icons`) resp. ≥ 29
(`create_solid_icons`); at the smaller catalog sizes the deviation grows
up to ⌊60/S⌋ units (3 at S = 20). -/
theorem claim_C3_amended (S : ℕ) (hS : S ∈ catalog) :
    ((CreateIcons.rowAvg S 0).1 = 52 ∧ (CreateIcons.rowAvg S 0).2.1 = 199 ∧
      (CreateIcons.rowAvg S 0).2.2 = 89) ∧
    ((SolidIcons.rowAvg S 0).1 = 100 ∧ (SolidIcons.rowAvg S 0).2.1 = 150 ∧
      (SolidIcons.rowAvg S 0).2.2 = 200) ∧
    (40 ≤ S →
      withinOne (CreateIcons.rowAvg S (S - 1)).1 34 ∧
      withinOne (CreateIcons.rowAvg S (S - 1)).2.1 139 ∧
      withinOne (CreateIcons.rowAvg S (S - 1)).2.2 34) ∧
    (29 ≤ S →
      withinOne (SolidIcons.rowAvg S (S - 1)).1 50 ∧
      withinOne (SolidIcons.rowAvg S (S - 1)).2.1 100 ∧
      withinOne (SolidIcons.rowAvg S (S - 1)).2.2 150) := by
  have h0 : 0 < S := by
    fin_cases hS <;> norm_num
  rw [CreateIcons.rowAvg_spec S 0 h0, SolidIcons.rowAvg_spec_solid S 0 h0,
    CreateIcons.rowAvg_spec S (S - 1) h0, SolidIcons.rowAvg_spec_solid S (S - 1) h0]
  fin_cases hS <;>
    norm_num [CreateIcons.gradRow, SolidIcons.gradRow, pyInt, withinOne]

/-- Witness for the amended C3 at catalog size 20. -/
theorem claim_C3_amended_witness :
    20 ∈ catalog ∧ (CreateIcons.rowAvg 20 0).1 = 52 :=
  ⟨by decide, (claim_C3_amended 20 (by decide)).1.1⟩

/- ## Ray-casting toolbox -/

/-- A convex combination lies between its endpoints. -/
theorem convex_between (x y l : ℝ) (h0 : 0 ≤ l) (h1 : l ≤ 1) :
    min x y ≤ x + l * (y - x) ∧ x + l * (y - x) ≤ max x y := by
  rcases le_total x y with h | h
  · rw [min_eq_left h, max_eq_right h]
    constructor <;> nlinarith
  · rw [min_eq_right h, max_eq_left h]
    constructor <;> nlinarith

/-- On a straddling edge, the crossing abscissa lies between the two
endpoint abscissas. -/
theorem xCross_between (p a b : ℝ × ℝ) (h : straddles p.2 a b) :
    min a.1 b.1 ≤ xCross p a b ∧ xCross p a b ≤ max a.1 b.1 := by
  have hx : xCross p a b = a.1 + (p.2 - a.2) / (b.2 - a.2) * (b.1 - a.1) := by
    unfold xCross
    ring
  rcases h with ⟨h1, h2⟩ | ⟨h1, h2⟩
  · have hd : 0 < b.2 - a.2 := by linarith
    have h0 : 0 ≤ (p.2 - a.2) / (b.2 - a.2) := div_nonneg (by linarith) hd.le
    have hle : (p.2 - a.2) / (b.2 - a.2) ≤ 1 := by
      rw [div_le_one hd]
      linarith
    rw [hx]
    exact convex_between a.1 b.1 _ h0 hle
  · have key : (p.2 - a.2) / (b.2 - a.2) = (a.2 - p.2) / (a.2 - b.2) := by
      rw [show a.2 - p.2 = -(p.2 - a.2) by ring, show a.2 - b.2 = -(b.2 - a.2) by ring,
        neg_div_neg_eq]
    have hd : 0 < a.2 - b.2 := by linarith
    have h0 : 0 ≤ (a.2 - p.2) / (a.2 - b.2) := div_nonneg (by linarith) hd.le
    have hle : (a.2 - p.2) / (a.2 - b.2) ≤ 1 := by
      rw [div_le_one hd]
      linarith
    rw [hx, key]
    exact convex_between a.1 b.1 _ h0 hle

/-- An edge whose endpoints are both strictly below the scan line is not
crossed. -/
theorem not_rayHits_of_lt (p a b : ℝ × ℝ) (ha : a.2 < p.2) (hb : b.2 < p.2) :
    ¬rayHits p a b := by
  rintro ⟨⟨h1, h2⟩ | ⟨h1, h2⟩, -⟩ <;> linarith

/-- An edge whose endpoints are both strictly above the scan line is not
crossed. -/
theorem not_rayHits_of_gt (p a b : ℝ × ℝ) (ha : p.2 < a.2) (hb : p.2 < b.2) :
    ¬rayHits p a b := by
  rintro ⟨⟨h1, h2⟩ | ⟨h1, h2⟩, -⟩ <;> linarith

/-- An edge lying weakly to the left of `p` is not crossed by the
rightward ray. -/
theorem not_rayHits_of_x_le (p a b : ℝ × ℝ) (ha : a.1 ≤ p.1) (hb : b.1 ≤ p.1) :
    ¬rayHits p a b := by
  rintro ⟨hs, hx⟩
  have h2 := (xCross_between p a b hs).2
  have h3 : max a.1 b.1 ≤ p.1 := max_le ha hb
  linarith

/-- A straddling edge lying strictly to the right of `p` is crossed. -/
theorem rayHits_of_x_gt (p a b : ℝ × ℝ) (h : straddles p.2 a b)
    (hxa : p.1 < a.1) (hxb : p.1 < b.1) : rayHits p a b :=
  ⟨h, lt_of_lt_of_le (lt_min hxa hxb) (xCross_between p a b h).1⟩

/-- If no edge is crossed, the point is outside the polygon. -/
theorem not_inPolygon_of_none (v : ℕ → ℝ × ℝ) (n : ℕ) (p : ℝ × ℝ)
    (h : ∀ i, i < n → ¬rayHits p (v i) (v ((i + 1) % n))) : ¬inPolygon v n p := by
  classical
  unfold inPolygon
  have he : crossSet v n p = ∅ := by
    unfold crossSet
    rw [Finset.filter_eq_empty_iff]
    intro i hi
    exact h i (Finset.mem_range.1 hi)
  rw [he]
  simp

/-- All vertices strictly below the scan line: outside. -/
theorem not_inPolygon_of_y_lt (v : ℕ → ℝ × ℝ) (n : ℕ) (p : ℝ × ℝ)
    (h : ∀ i, i < n → (v i).2 < p.2) : ¬inPolygon v n p :=
  not_inPolygon_of_none v n p fun i hi =>
    not_rayHits_of_lt p _ _ (h i hi) (h _ (Nat.mod_lt _ (Nat.zero_lt_of_lt hi)))

/-- All vertices strictly above the scan line: outside. -/
theorem not_inPolygon_of_y_gt (v : ℕ → ℝ × ℝ) (n : ℕ) (p : ℝ × ℝ)
    (h : ∀ i, i < n → p.2 < (v i).2) : ¬inPolygon v n p :=
  not_inPolygon_of_none v n p fun i hi =>
    not_rayHits_of_gt p _ _ (h i hi) (h _ (Nat.mod_lt _ (Nat.zero_lt_of_lt hi)))

/-- All vertices weakly to the left of `p`: outside. -/
theorem not_inPolygon_of_x_le (v : ℕ → ℝ × ℝ) (n : ℕ) (p : ℝ × ℝ)
    (h : ∀ i, i < n → (v i).1 ≤ p.1) : ¬inPolygon v n p :=
  not_inPolygon_of_none v n p fun i hi =>
    not_rayHits_of_x_le p _ _ (h i hi) (h _ (Nat.mod_lt _ (Nat.zero_lt_of_lt hi)))

/-- If exactly one edge is crossed, the point is inside the polygon. -/
theorem inPolygon_of_unique (v : ℕ → ℝ × ℝ) (n : ℕ) (p : ℝ × ℝ) (j : ℕ) (hj : j < n)
    (H : ∀ i, i < n → (rayHits p (v i) (v ((i + 1) % n)) ↔ i = j)) : inPolygon v n p := by
  unfold inPolygon
  have hs : crossSet v n p = {j} := by
    apply Finset.ext
    intro i
    simp only [crossSet, Finset.mem_filter, Finset.mem_range, Finset.mem_singleton]
    constructor
    · rintro ⟨hi, hr⟩
      exact (H i hi).1 hr
    · rintro rfl
      exact ⟨hj, (H _ hj).2 rfl⟩
  rw [hs, Finset.card_singleton]
  exact odd_one

/-- If exactly two edges are crossed, the point is outside the polygon. -/
theorem not_inPolygon_of_pair (v : ℕ → ℝ × ℝ) (n : ℕ) (p : ℝ × ℝ) (j₁ j₂ : ℕ)
    (hj₁ : j₁ < n) (hj₂ : j₂ < n) (hne : j₁ ≠ j₂)
    (H : ∀ i, i < n → (rayHits p (v i) (v ((i + 1) % n)) ↔ i = j₁ ∨ i = j₂)) :
    ¬inPolygon v n p := by
  unfold inPolygon
  have hs : crossSet v n p = {j₁, j₂} := by
    apply Finset.ext
    intro i
    simp only [crossSet, Finset.mem_filter, Finset.mem_range, Finset.mem_insert,
      Finset.mem_singleton]
    constructor
    · rintro ⟨hi, hr⟩
      exact (H i hi).1 hr
    · rintro (rfl | rfl)
      · exact ⟨hj₁, (H _ hj₁).2 (Or.inl rfl)⟩
      · exact ⟨hj₂, (H _ hj₂).2 (Or.inr rfl)⟩
  rw [hs, Finset.card_insert_of_not_mem (by simp [hne]), Finset.card_singleton]
  decide

/-- Points whose ordinate distance from the centre exceeds the radius are
outside a disc. -/
theorem not_inDisc_of_y (c : ℝ × ℝ) (rad : ℝ) (p : ℝ × ℝ)
    (h : rad ^ 2 < (p.2 - c.2) ^ 2) : ¬inDisc c rad p := by
  unfold inDisc
  nlinarith [sq_nonneg (p.1 - c.1)]

/-- Points whose abscissa distance from the centre exceeds the radius are
outside a disc. -/
theorem not_inDisc_of_x (c : ℝ × ℝ) (rad : ℝ) (p : ℝ × ℝ)
    (h : rad ^ 2 < (p.1 - c.1) ^ 2) : ¬inDisc c rad p := by
  unfold inDisc
  nlinarith [sq_nonneg (p.2 - c.2)]

/- ## The heart curve as a polynomial in cos -/

/-- The heart ordinate is a quartic in `cos`. -/
theorem heartYc_eq_poly (s : ℝ) : heartYc s = heartPoly (Real.cos s) := by
  unfold heartYc heartPoly
  have h2 : Real.cos (2 * s) = 2 * Real.cos s ^ 2 - 1 := Real.cos_two_mul s
  have h3 : Real.cos (3 * s) = 4 * Real.cos s ^ 3 - 3 * Real.cos s := Real.cos_three_mul s
  have h4 : Real.cos (4 * s) = 2 * Real.cos (2 * s) ^ 2 - 1 := by
    rw [show (4 : ℝ) * s = 2 * (2 * s) by ring]
    exact Real.cos_two_mul (2 * s)
  rw [h4, h3, h2]
  ring

/-- Crude bound: the heart ordinate is at most 21 in absolute value. -/
theorem heartYc_abs_le (s : ℝ) : |heartYc s| ≤ 21 := by
  unfold heartYc
  have h1 := abs_le.1 (Real.abs_cos_le_one s)
  have h2 := abs_le.1 (Real.abs_cos_le_one (2 * s))
  have h3 := abs_le.1 (Real.abs_cos_le_one (3 * s))
  have h4 := abs_le.1 (Real.abs_cos_le_one (4 * s))
  rw [abs_le]
  constructor <;> [nlinarith; nlinarith]

/-- Crude bound: the heart abscissa is at most 16 in absolute value. -/
theorem heartXc_abs_le (s : ℝ) : |heartXc s| ≤ 16 := by
  unfold heartXc
  have h1 := abs_le.1 (Real.abs_sin_le_one s)
  rw [abs_le]
  constructor <;> nlinarith [sq_nonneg (Real.sin s), sq_nonneg (1 - Real.sin s),
    sq_nonneg (1 + Real.sin s)]

/- ## Sign certificates for the heart quartic -/

/-- On `[-0.18, 1]` the quartic is negative (the curve point is above the
canvas centre row). -/
theorem heartPoly_neg (c : ℝ) (h1 : -(9 / 50) ≤ c) (h2 : c ≤ 1) : heartPoly c < 0 := by
  have hc2 : c ^ 2 ≤ 1 := by nlinarith
  have hc3 : c ^ 3 ≤ 1 := by nlinarith [sq_nonneg (c + 1), sq_nonneg (c - 1)]
  have hH : 8 * c ^ 3 + (164 / 25) * c ^ 2 + (512 / 625) * c - 299179 / 15625 < 0 := by
    nlinarith
  have key : heartPoly c =
      (c + 9 / 50) * (8 * c ^ 3 + (164 / 25) * c ^ 2 + (512 / 625) * c - 299179 / 15625) +
        -(432389 / 781250) := by
    unfold heartPoly
    ring
  nlinarith [mul_nonneg (show (0 : ℝ) ≤ c + 9 / 50 by linarith)
    (show (0 : ℝ) ≤ -(8 * c ^ 3 + (164 / 25) * c ^ 2 + (512 / 625) * c - 299179 / 15625) by
      linarith)]

/-- On `[-1, -0.21]` the quartic is positive. -/
theorem heartPoly_pos (c : ℝ) (h1 : -1 ≤ c) (h2 : c ≤ -(21 / 100)) : 0 < heartPoly c := by
  have hc2 : c ^ 2 ≤ 1 := by nlinarith
  have hc3 : c ^ 3 ≤ 0 := by nlinarith [sq_nonneg c]
  have hH : 8 * c ^ 3 + (158 / 25) * c ^ 2 + (841 / 1250) * c - 2392661 / 125000 < 0 := by
    nlinarith
  have key : heartPoly c =
      (c + 21 / 100) * (8 * c ^ 3 + (158 / 25) * c ^ 2 + (841 / 1250) * c - 2392661 / 125000) +
        245881 / 12500000 := by
    unfold heartPoly
    ring
  nlinarith [mul_nonneg (show (0 : ℝ) ≤ -(c + 21 / 100) by linarith)
    (show (0 : ℝ) ≤ -(8 * c ^ 3 + (158 / 25) * c ^ 2 + (841 / 1250) * c - 2392661 / 125000) by
      linarith)]

/-- On `[-1, -0.27]` the quartic exceeds 1/2. -/
theorem heartPoly_gt_half (c : ℝ) (h1 : -1 ≤ c) (h2 : c ≤ -(27 / 100)) :
    1 / 2 < heartPoly c := by
  have hc2 : c ^ 2 ≤ 1 := by nlinarith
  have hc3 : c ^ 3 ≤ 0 := by nlinarith [sq_nonneg c]
  have hH : 8 * c ^ 3 + (146 / 25) * c ^ 2 + (529 / 1250) * c - 2389283 / 125000 < 0 := by
    nlinarith
  have key : heartPoly c =
      (c + 27 / 100) * (8 * c ^ 3 + (146 / 25) * c ^ 2 + (529 / 1250) * c - 2389283 / 125000) +
        14510641 / 12500000 := by
    unfold heartPoly
    ring
  nlinarith [mul_nonneg (show (0 : ℝ) ≤ -(c + 27 / 100) by linarith)
    (show (0 : ℝ) ≤ -(8 * c ^ 3 + (146 / 25) * c ^ 2 + (529 / 1250) * c - 2389283 / 125000) by
      linarith)]

/-- On `[-0.23, 1]` the quartic stays below 1/2. -/
theorem heartPoly_lt_half (c : ℝ) (h1 : -(23 / 100) ≤ c) (h2 : c ≤ 1) :
    heartPoly c < 1 / 2 := by
  have hc2 : c ^ 2 ≤ 1 := by nlinarith
  have hc3 : c ^ 3 ≤ 1 := by nlinarith [sq_nonneg (c + 1), sq_nonneg (c - 1)]
  have hH : 8 * c ^ 3 + (154 / 25) * c ^ 2 + (729 / 1250) * c - 2391767 / 125000 < 0 := by
    nlinarith
  have key : heartPoly c =
      (c + 23 / 100) * (8 * c ^ 3 + (154 / 25) * c ^ 2 + (729 / 1250) * c - 2391767 / 125000) +
        5010641 / 12500000 := by
    unfold heartPoly
    ring
  nlinarith [mul_nonneg (show (0 : ℝ) ≤ c + 23 / 100 by linarith)
    (show (0 : ℝ) ≤ -(8 * c ^ 3 + (154 / 25) * c ^ 2 + (729 / 1250) * c - 2391767 / 125000) by
      linarith)]

/-- On `[-0.465, 1]` the quartic stays below 5. -/
theorem heartPoly_le_five (c : ℝ) (h1 : -(93 / 200) ≤ c) (h2 : c ≤ 1) :
    heartPoly c ≤ 5 := by
  have hc2 : c ^ 2 ≤ 1 := by nlinarith
  have hc3 : c ^ 3 ≤ 1 := by nlinarith [sq_nonneg (c + 1), sq_nonneg (c - 1)]
  have hH : 8 * c ^ 3 + (107 / 25) * c ^ 2 + (49 / 5000) * c - 19004557 / 1000000 < 0 := by
    nlinarith
  have key : heartPoly c =
      (c + 93 / 200) * (8 * c ^ 3 + (107 / 25) * c ^ 2 + (49 / 5000) * c - 19004557 / 1000000) +
        967423801 / 200000000 := by
    unfold heartPoly
    ring
  nlinarith [mul_nonneg (show (0 : ℝ) ≤ c + 93 / 200 by linarith)
    (show (0 : ℝ) ≤ -(8 * c ^ 3 + (107 / 25) * c ^ 2 + (49 / 5000) * c - 19004557 / 1000000) by
      linarith)]

/-- Global lower bound: the quartic never goes below -16. -/
theorem heartPoly_ge_neg16 (c : ℝ) : -16 ≤ heartPoly c := by
  unfold heartPoly
  nlinarith [sq_nonneg (c ^ 2 + c / 2 - 1 / 2), sq_nonneg (c - 15 / 16)]

/-- On `[-1, 1]` the quartic is at most 17 (attained at `c = -1`). -/
theorem heartPoly_le_17 (c : ℝ) (h1 : -1 ≤ c) (h2 : c ≤ 1) : heartPoly c ≤ 17 := by
  have hc3 : c ^ 3 ≤ 1 := by nlinarith [sq_nonneg (c + 1), sq_nonneg (c - 1)]
  have key : heartPoly c = 17 + (c + 1) * (8 * c ^ 3 + 2 * c - 21) := by
    unfold heartPoly
    ring
  nlinarith [mul_nonneg (show (0 : ℝ) ≤ c + 1 by linarith)
    (show (0 : ℝ) ≤ -(8 * c ^ 3 + 2 * c - 21) by nlinarith)]

/-- Near `c = -1` the quartic stays above 16.9. -/
theorem heartPoly_near_max (c : ℝ) (h1 : -1 ≤ c) (h2 : c ≤ -(999 / 1000)) :
    169 / 10 ≤ heartPoly c := by
  have hc3 : -1 ≤ c ^ 3 := by nlinarith [sq_nonneg (c + 1), sq_nonneg (c - 1)]
  have key : heartPoly c = 17 + (c + 1) * (8 * c ^ 3 + 2 * c - 21) := by
    unfold heartPoly
    ring
  nlinarith [mul_nonneg (show (0 : ℝ) ≤ c + 1 by linarith)
    (show (0 : ℝ) ≤ 8 * c ^ 3 + 2 * c - 21 + 31 by nlinarith)]

/- ## Taylor bounds for sin and cos at the needed sample parameters -/

/-- Two-sided cubic Taylor bound for `sin` on `[-1, 1]`. -/
theorem sin_poly_bounds (x : ℝ) (hx : |x| ≤ 1) :
    x - x ^ 3 / 6 - x ^ 4 * (5 / 96) ≤ Real.sin x ∧
    Real.sin x ≤ x - x ^ 3 / 6 + x ^ 4 * (5 / 96) := by
  have hb := abs_le.1 (Real.sin_bound hx)
  have h4 : |x| ^ 4 = x ^ 4 := by
    rw [← abs_pow]
    exact abs_of_nonneg (by positivity)
  rw [h4] at hb
  exact ⟨by linarith [hb.1], by linarith [hb.2]⟩

/-- Two-sided quadratic Taylor bound for `cos` on `[-1, 1]`. -/
theorem cos_poly_bounds (x : ℝ) (hx : |x| ≤ 1) :
    1 - x ^ 2 / 2 - x ^ 4 * (5 / 96) ≤ Real.cos x ∧
    Real.cos x ≤ 1 - x ^ 2 / 2 + x ^ 4 * (5 / 96) := by
  have hb := abs_le.1 (Real.cos_bound hx)
  have h4 : |x| ^ 4 = x ^ 4 := by
    rw [← abs_pow]
    exact abs_of_nonneg (by positivity)
  rw [h4] at hb
  exact ⟨by linarith [hb.1], by linarith [hb.2]⟩

/-- Cube bounds from an absolute-value bound. -/
theorem cube_bounds (x m : ℝ) (h : |x| ≤ m) : -(m ^ 3) ≤ x ^ 3 ∧ x ^ 3 ≤ m ^ 3 := by
  have hb := abs_le.1 h
  constructor <;>
    nlinarith [sq_nonneg (m + x), sq_nonneg (m - x), sq_nonneg m, sq_nonneg x,
      mul_nonneg (mul_nonneg (show (0 : ℝ) ≤ m + x by linarith)
        (show (0 : ℝ) ≤ m + x by linarith)) (show (0 : ℝ) ≤ m - x by linarith),
      mul_nonneg (mul_nonneg (show (0 : ℝ) ≤ m - x by linarith)
        (show (0 : ℝ) ≤ m - x by linarith)) (show (0 : ℝ) ≤ m + x by linarith)]

/-- Fourth-power bound from an absolute-value bound. -/
theorem quart_bound (x m : ℝ) (h : |x| ≤ m) : x ^ 4 ≤ m ^ 4 := by
  have h4 : x ^ 4 = |x| ^ 4 := by
    rw [← abs_pow]
    exact (abs_of_nonneg (by positivity)).symm
  rw [h4]
  exact pow_le_pow_left₀ (abs_nonneg x) h 4

/-- Sharp cube upper bound for a negative argument. -/
theorem cube_ub_neg (x a : ℝ) (h : x ≤ -a) (ha : 0 ≤ a) : x ^ 3 ≤ -(a ^ 3) := by
  nlinarith [mul_nonneg (show (0 : ℝ) ≤ -(x + a) by linarith)
    (show (0 : ℝ) ≤ x ^ 2 - a * x + a ^ 2 by nlinarith [sq_nonneg (x - a), sq_nonneg (x + a)]),
    sq_nonneg (x + a)]

/-- `cos 1.75 ≥ -0.18`. -/
theorem cos_175_lb : -(9 / 50) ≤ Real.cos (7 / 4) := by
  have hpi1 := Real.pi_gt_d6
  have hpi2 := Real.pi_lt_d6
  have hq : Real.cos (7 / 4) = Real.sin (Real.pi / 2 - 7 / 4) :=
    (Real.sin_pi_div_two_sub (7 / 4)).symm
  set x : ℝ := Real.pi / 2 - 7 / 4 with hxdef
  have hx1 : -(1793 / 10000) ≤ x := by
    rw [hxdef]
    norm_num
    linarith
  have hx2 : x ≤ -(1792 / 10000) := by
    rw [hxdef]
    norm_num
    linarith
  have hm : |x| ≤ 1793 / 10000 := abs_le.2 ⟨by linarith, by linarith⟩
  have hs := (sin_poly_bounds x (le_trans hm (by norm_num))).1
  have hc := cube_ub_neg x (1792 / 10000) hx2 (by norm_num)
  have h4 := quart_bound x (1793 / 10000) hm
  rw [hq]
  nlinarith

/-- `cos 1.8 ≤ -0.21`. -/
theorem cos_18_ub : Real.cos (9 / 5) ≤ -(21 / 100) := by
  have hpi1 := Real.pi_gt_d6
  have hpi2 := Real.pi_lt_d6
  have hq : Real.cos (9 / 5) = Real.sin (Real.pi / 2 - 9 / 5) :=
    (Real.sin_pi_div_two_sub (9 / 5)).symm
  set x : ℝ := Real.pi / 2 - 9 / 5 with hxdef
  have hx1 : -(230 / 1000) ≤ x := by
    rw [hxdef]
    norm_num
    linarith
  have hx2 : x ≤ -(229 / 1000) := by
    rw [hxdef]
    norm_num
    linarith
  have hm : |x| ≤ 230 / 1000 := abs_le.2 ⟨by linarith, by linarith⟩
  have hs := (sin_poly_bounds x (le_trans hm (by norm_num))).2
  have hc := (cube_bounds x (230 / 1000) hm).1
  have h4 := quart_bound x (230 / 1000) hm
  rw [hq]
  nlinarith

/-- `cos 1.8 ≥ -0.23`. -/
theorem cos_18_lb : -(23 / 100) ≤ Real.cos (9 / 5) := by
  have hpi1 := Real.pi_gt_d6
  have hpi2 := Real.pi_lt_d6
  have hq : Real.cos (9 / 5) = Real.sin (Real.pi / 2 - 9 / 5) :=
    (Real.sin_pi_div_two_sub (9 / 5)).symm
  set x : ℝ := Real.pi / 2 - 9 / 5 with hxdef
  have hx1 : -(230 / 1000) ≤ x := by
    rw [hxdef]
    norm_num
    linarith
  have hx2 : x ≤ -(229 / 1000) := by
    rw [hxdef]
    norm_num
    linarith
  have hm : |x| ≤ 230 / 1000 := abs_le.2 ⟨by linarith, by linarith⟩
  have hs := (sin_poly_bounds x (le_trans hm (by norm_num))).1
  have hc := cube_ub_neg x (229 / 1000) hx2 (by norm_num)
  have h4 := quart_bound x (230 / 1000) hm
  rw [hq]
  nlinarith

/-- `cos 1.85 ≤ -0.27`. -/
theorem cos_185_ub : Real.cos (37 / 20) ≤ -(27 / 100) := by
  have hpi1 := Real.pi_gt_d6
  have hpi2 := Real.pi_lt_d6
  have hq : Real.cos (37 / 20) = Real.sin (Real.pi / 2 - 37 / 20) :=
    (Real.sin_pi_div_two_sub (37 / 20)).symm
  set x : ℝ := Real.pi / 2 - 37 / 20 with hxdef
  have hx1 : -(280 / 1000) ≤ x := by
    rw [hxdef]
    norm_num
    linarith
  have hx2 : x ≤ -(279 / 1000) := by
    rw [hxdef]
    norm_num
    linarith
  have hm : |x| ≤ 280 / 1000 := abs_le.2 ⟨by linarith, by linarith⟩
  have hs := (sin_poly_bounds x (le_trans hm (by norm_num))).2
  have hc := (cube_bounds x (280 / 1000) hm).1
  have h4 := quart_bound x (280 / 1000) hm
  rw [hq]
  nlinarith

/-- `cos 2.05 ≥ -0.465`. -/
theorem cos_205_lb : -(93 / 200) ≤ Real.cos (41 / 20) := by
  have hpi1 := Real.pi_gt_d6
  have hpi2 := Real.pi_lt_d6
  have hq : Real.cos (41 / 20) = Real.sin (Real.pi / 2 - 41 / 20) :=
    (Real.sin_pi_div_two_sub (41 / 20)).symm
  set x : ℝ := Real.pi / 2 - 41 / 20 with hxdef
  have hx1 : -(4793 / 10000) ≤ x := by
    rw [hxdef]
    norm_num
    linarith
  have hx2 : x ≤ -(4792 / 10000) := by
    rw [hxdef]
    norm_num
    linarith
  have hm : |x| ≤ 4793 / 10000 := abs_le.2 ⟨by linarith, by linarith⟩
  have hs := (sin_poly_bounds x (le_trans hm (by norm_num))).1
  have hc := cube_ub_neg x (4792 / 10000) hx2 (by norm_num)
  have h4 := quart_bound x (4793 / 10000) hm
  rw [hq]
  nlinarith

/-- `sin 1.8 ≥ 1/2`. -/
theorem sin_18_lb : 1 / 2 ≤ Real.sin (9 / 5) := by
  have hpi1 := Real.pi_gt_d6
  have hpi2 := Real.pi_lt_d6
  have hq : Real.sin (9 / 5) = Real.cos (Real.pi / 2 - 9 / 5) :=
    (Real.cos_pi_div_two_sub (9 / 5)).symm
  set x : ℝ := Real.pi / 2 - 9 / 5 with hxdef
  have hx1 : -(230 / 1000) ≤ x := by
    rw [hxdef]
    norm_num
    linarith
  have hx2 : x ≤ -(229 / 1000) := by
    rw [hxdef]
    norm_num
    linarith
  have hm : |x| ≤ 230 / 1000 := abs_le.2 ⟨by linarith, by linarith⟩
  have hs := (cos_poly_bounds x (le_trans hm (by norm_num))).1
  have h4 := quart_bound x (230 / 1000) hm
  rw [hq]
  nlinarith

/-- `sin 1.85 ≥ 1/2`. -/
theorem sin_185_lb : 1 / 2 ≤ Real.sin (37 / 20) := by
  have hpi1 := Real.pi_gt_d6
  have hpi2 := Real.pi_lt_d6
  have hq : Real.sin (37 / 20) = Real.cos (Real.pi / 2 - 37 / 20) :=
    (Real.cos_pi_div_two_sub (37 / 20)).symm
  set x : ℝ := Real.pi / 2 - 37 / 20 with hxdef
  have hx1 : -(280 / 1000) ≤ x := by
    rw [hxdef]
    norm_num
    linarith
  have hx2 : x ≤ -(279 / 1000) := by
    rw [hxdef]
    norm_num
    linarith
  have hm : |x| ≤ 280 / 1000 := abs_le.2 ⟨by linarith, by linarith⟩
  have hs := (cos_poly_bounds x (le_trans hm (by norm_num))).1
  have h4 := quart_bound x (280 / 1000) hm
  rw [hq]
  nlinarith

/-- `sin 2.05 ≥ 0.87`. -/
theorem sin_205_lb : 87 / 100 ≤ Real.sin (41 / 20) := by
  have hpi1 := Real.pi_gt_d6
  have hpi2 := Real.pi_lt_d6
  have hq : Real.sin (41 / 20) = Real.cos (Real.pi / 2 - 41 / 20) :=
    (Real.cos_pi_div_two_sub (41 / 20)).symm
  set x : ℝ := Real.pi / 2 - 41 / 20 with hxdef
  have hx1 : -(480 / 1000) ≤ x := by
    rw [hxdef]
    norm_num
    linarith
  have hx2 : x ≤ -(479 / 1000) := by
    rw [hxdef]
    norm_num
    linarith
  have hm : |x| ≤ 480 / 1000 := abs_le.2 ⟨by linarith, by linarith⟩
  have hs := (cos_poly_bounds x (le_trans hm (by norm_num))).1
  have h4 := quart_bound x (480 / 1000) hm
  rw [hq]
  nlinarith

/-- `sin 1.55 ≥ 0.999`. -/
theorem sin_155_lb : 999 / 1000 ≤ Real.sin (31 / 20) := by
  have hpi1 := Real.pi_gt_d6
  have hpi2 := Real.pi_lt_d6
  have hq : Real.sin (31 / 20) = Real.cos (Real.pi / 2 - 31 / 20) :=
    (Real.cos_pi_div_two_sub (31 / 20)).symm
  set x : ℝ := Real.pi / 2 - 31 / 20 with hxdef
  have hx1 : (20 / 1000 : ℝ) ≤ x := by
    rw [hxdef]
    norm_num
    linarith
  have hx2 : x ≤ 21 / 1000 := by
    rw [hxdef]
    norm_num
    linarith
  have hm : |x| ≤ 21 / 1000 := abs_le.2 ⟨by linarith, by linarith⟩
  have hs := (cos_poly_bounds x (le_trans hm (by norm_num))).1
  have h4 := quart_bound x (21 / 1000) hm
  rw [hq]
  nlinarith

/-- `sin 4.7 ≤ -0.999`. -/
theorem sin_47_ub : Real.sin (47 / 10) ≤ -(999 / 1000) := by
  have hpi1 := Real.pi_gt_d6
  have hpi2 := Real.pi_lt_d6
  have hsplit : (47 / 10 : ℝ) = Real.pi + (47 / 10 - Real.pi) := by ring
  have hq : Real.sin (47 / 10) = -Real.sin (47 / 10 - Real.pi) := by
    rw [hsplit, Real.sin_add]
    simp [Real.sin_pi, Real.cos_pi]
  have hq2 : Real.sin (47 / 10 - Real.pi) = Real.cos (Real.pi / 2 - (47 / 10 - Real.pi)) :=
    (Real.cos_pi_div_two_sub _).symm
  set x : ℝ := Real.pi / 2 - (47 / 10 - Real.pi) with hxdef
  have hx1 : (12 / 1000 : ℝ) ≤ x := by
    rw [hxdef]
    norm_num
    linarith
  have hx2 : x ≤ 13 / 1000 := by
    rw [hxdef]
    norm_num
    linarith
  have hm : |x| ≤ 13 / 1000 := abs_le.2 ⟨by linarith, by linarith⟩
  have hs := (cos_poly_bounds x (le_trans hm (by norm_num))).1
  have h4 := quart_bound x (13 / 1000) hm
  rw [hq, hq2]
  nlinarith

/-- `cos 3.15 ≤ -0.999`. -/
theorem cos_315_ub : Real.cos (63 / 20) ≤ -(999 / 1000) := by
  have hpi1 := Real.pi_gt_d6
  have hpi2 := Real.pi_lt_d6
  have h0 : Real.pi - (Real.pi - 63 / 20) = (63 / 20 : ℝ) := by ring
  have hq : Real.cos (63 / 20) = -Real.cos (Real.pi - 63 / 20) := by
    nth_rewrite 1 [← h0]
    rw [Real.cos_pi_sub]
  set x : ℝ := Real.pi - 63 / 20 with hxdef
  have hx1 : -(9 / 1000 : ℝ) ≤ x := by
    rw [hxdef]
    norm_num
    linarith
  have hx2 : x ≤ -(8 / 1000) := by
    rw [hxdef]
    norm_num
    linarith
  have hm : |x| ≤ 9 / 1000 := abs_le.2 ⟨by linarith, by linarith⟩
  have hs := (cos_poly_bounds x (le_trans hm (by norm_num))).1
  have h4 := quart_bound x (9 / 1000) hm
  rw [hq]
  nlinarith

/-- `cos (π + u) = -cos u`. -/
theorem cos_pi_add (u : ℝ) : Real.cos (Real.pi + u) = -Real.cos u := by
  rw [Real.cos_add]
  simp

/-- `sin (π + u) = -sin u`. -/
theorem sin_pi_add (u : ℝ) : Real.sin (Real.pi + u) = -Real.sin u := by
  rw [Real.sin_add]
  simp

/- ## Sign of the heart curve on the sample zones -/

/-- On `t ∈ [0, 1.75]` the curve ordinate is negative (above centre). -/
theorem heartYc_neg_zone (s : ℝ) (h0 : 0 ≤ s) (h1 : s ≤ 7 / 4) : heartYc s < 0 := by
  have hpi := Real.pi_gt_d6
  have hmono : Real.cos (7 / 4) ≤ Real.cos s :=
    Real.cos_le_cos_of_nonneg_of_le_pi h0 (by linarith) h1
  rw [heartYc_eq_poly]
  exact heartPoly_neg _ (le_trans cos_175_lb hmono) (Real.cos_le_one s)

/-- On `t ∈ [1.8, 3.15]` the curve ordinate is positive (below centre). -/
theorem heartYc_pos_zone (s : ℝ) (h0 : 9 / 5 ≤ s) (h1 : s ≤ 63 / 20) : 0 < heartYc s := by
  have hpi1 := Real.pi_gt_d6
  have hpi2 := Real.pi_lt_d6
  have hub : Real.cos s ≤ -(21 / 100) := by
    rcases le_or_lt s Real.pi with hsp | hsp
    · exact le_trans (Real.cos_le_cos_of_nonneg_of_le_pi (by norm_num) hsp h0) cos_18_ub
    · have heq : Real.cos s = -Real.cos (s - Real.pi) := by
        have hc := cos_pi_add (s - Real.pi)
        rw [show Real.pi + (s - Real.pi) = s from by ring] at hc
        exact hc
      have hu2 : s - Real.pi ≤ 9 / 1000 := by linarith
      have hm : |s - Real.pi| ≤ 9 / 1000 := abs_le.2 ⟨by linarith, hu2⟩
      have hcb := (cos_poly_bounds _ (le_trans hm (by norm_num))).1
      have h4 := quart_bound _ (9 / 1000) hm
      have hsq := abs_le.1 hm
      rw [heq]
      nlinarith
  rw [heartYc_eq_poly]
  exact heartPoly_pos _ (Real.neg_one_le_cos s) hub

/-- On `t ∈ [0, 1.8]` the curve ordinate stays below 1/2. -/
theorem heartYc_lt_half_zone (s : ℝ) (h0 : 0 ≤ s) (h1 : s ≤ 9 / 5) : heartYc s < 1 / 2 := by
  have hpi := Real.pi_gt_d6
  have hmono : Real.cos (9 / 5) ≤ Real.cos s :=
    Real.cos_le_cos_of_nonneg_of_le_pi h0 (by linarith) h1
  rw [heartYc_eq_poly]
  exact heartPoly_lt_half _ (le_trans cos_18_lb hmono) (Real.cos_le_one s)

/-- On `t ∈ [1.85, 2.05]` the curve ordinate exceeds 1/2. -/
theorem heartYc_gt_half_zone (s : ℝ) (h0 : 37 / 20 ≤ s) (h1 : s ≤ 41 / 20) :
    1 / 2 < heartYc s := by
  have hpi := Real.pi_gt_d6
  have hmono : Real.cos s ≤ Real.cos (37 / 20) :=
    Real.cos_le_cos_of_nonneg_of_le_pi (by norm_num) (by linarith) h0
  rw [heartYc_eq_poly]
  exact heartPoly_gt_half _ (Real.neg_one_le_cos s) (le_trans hmono cos_185_ub)

/-- At `t = 2.05` the curve ordinate is at most 5. -/
theorem heartYc_le_five_205 : heartYc (41 / 20) ≤ 5 := by
  rw [heartYc_eq_poly]
  exact heartPoly_le_five _ cos_205_lb (Real.cos_le_one _)

/-- On `t ∈ [3.15, 6.25]` the sine is nonpositive (left half of the curve). -/
theorem sin_nonpos_zone (s : ℝ) (h0 : 63 / 20 ≤ s) (h1 : s ≤ 25 / 4) : Real.sin s ≤ 0 := by
  have hpi1 := Real.pi_gt_d6
  have hpi2 := Real.pi_lt_d6
  have heq : Real.sin s = -Real.sin (s - Real.pi) := by
    have hc := sin_pi_add (s - Real.pi)
    rw [show Real.pi + (s - Real.pi) = s from by ring] at hc
    exact hc
  rw [heq]
  have : 0 ≤ Real.sin (s - Real.pi) :=
    Real.sin_nonneg_of_nonneg_of_le_pi (by linarith) (by linarith)
  linarith

/-- At `t = π` the curve ordinate is exactly 17 (the bottom tip). -/
theorem heartYc_at_pi : heartYc Real.pi = 17 := by
  rw [heartYc_eq_poly, Real.cos_pi]
  norm_num [heartPoly]

/-- At `t = 3.15` the curve ordinate is at least 16.9. -/
theorem heartYc_315_lb : 169 / 10 ≤ heartYc (63 / 20) := by
  rw [heartYc_eq_poly]
  exact heartPoly_near_max _ (Real.neg_one_le_cos _) cos_315_ub

/-- At `t = π/2` the curve abscissa is exactly 16. -/
theorem heartXc_at_pi_div_two : heartXc (Real.pi / 2) = 16 := by
  unfold heartXc
  rw [Real.sin_pi_div_two]
  norm_num

/-- At `t = 3π/2` the curve abscissa is exactly -16. -/
theorem heartXc_at_three_pi_div_two : heartXc (Real.pi + Real.pi / 2) = -16 := by
  unfold heartXc
  rw [sin_pi_add, Real.sin_pi_div_two]
  norm_num

/-- At `t = 1.55` the curve abscissa is nearly maximal. -/
theorem heartXc_155_lb : 16 * (999 / 1000) ^ 3 ≤ heartXc (31 / 20) := by
  unfold heartXc
  have h := sin_155_lb
  nlinarith [pow_le_pow_left₀ (show (0 : ℝ) ≤ 999 / 1000 by norm_num) h 3]

/-- At `t = 4.7` the curve abscissa is nearly minimal. -/
theorem heartXc_47_ub : heartXc (47 / 10) ≤ -(16 * (999 / 1000) ^ 3) := by
  unfold heartXc
  have h := sin_47_ub
  have hc := cube_ub_neg (Real.sin (47 / 10)) (999 / 1000) h (by norm_num)
  nlinarith

/- ## Claim C4: the glyph bounding-box centre -/

/-- Sample 18 of `create_icons` is the angle 90°. -/
theorem CreateIcons.t_18 : CreateIcons.t 18 = Real.pi / 2 := by
  unfold CreateIcons.t
  push_cast
  ring

/-- Sample 36 of `create_icons` is the angle 180°. -/
theorem CreateIcons.t_36 : CreateIcons.t 36 = Real.pi := by
  unfold CreateIcons.t
  push_cast
  ring

/-- Sample 54 of `create_icons` is the angle 270°. -/
theorem CreateIcons.t_54 : CreateIcons.t 54 = Real.pi + Real.pi / 2 := by
  unfold CreateIcons.t
  push_cast
  ring

/-- Sample 31 of `create_beautiful_icons` is `t = 1.55`. -/
theorem BeautifulIcons.t_31 : BeautifulIcons.t 31 = 31 / 20 := by
  unfold BeautifulIcons.t
  push_cast
  ring

/-- Sample 63 of `create_beautiful_icons` is `t = 3.15`. -/
theorem BeautifulIcons.t_63 : BeautifulIcons.t 63 = 63 / 20 := by
  unfold BeautifulIcons.t
  push_cast
  ring

/-- Sample 94 of `create_beautiful_icons` is `t = 4.7`. -/
theorem BeautifulIcons.t_94 : BeautifulIcons.t 94 = 47 / 10 := by
  unfold BeautifulIcons.t
  push_cast
  ring

/-- The integer half of a natural number is within 1/2 of its real half. -/
theorem halfInt_close (S : ℕ) : |(((S : ℤ) / 2 : ℤ) : ℝ) - (S : ℝ) / 2| ≤ 1 / 2 := by
  have key : 2 * ((S : ℤ) / 2) = (S : ℤ) ∨ 2 * ((S : ℤ) / 2) = (S : ℤ) - 1 := by omega
  rw [abs_le]
  rcases key with h | h <;>
  · have hc := congrArg (fun z : ℤ => (z : ℝ)) h
    push_cast at hc
    constructor <;> linarith

/-- The heart scale of `create_icons` is nonnegative. -/
theorem CreateIcons.hs_cast_nonneg (S : ℕ) : (0 : ℝ) ≤ (CreateIcons.heart_size S : ℝ) := by
  have h : (0 : ℤ) ≤ CreateIcons.heart_size S := by
    unfold CreateIcons.heart_size
    omega
  exact_mod_cast h

/-- The heart scale of `create_beautiful_icons` is nonnegative. -/
theorem BeautifulIcons.hs_cast_nonneg_beaut (S : ℕ) : (0 : ℝ) ≤ (BeautifulIcons.heart_size S : ℝ) := by
  have h : (0 : ℤ) ≤ BeautifulIcons.heart_size S := by
    unfold BeautifulIcons.heart_size
    omega
  exact_mod_cast h

/-- The maximal heart abscissa of `create_icons` is attained at 90°. -/
theorem CreateIcons.bbXmax_eq (S : ℕ) :
    CreateIcons.bbXmax S =
      (CreateIcons.center_x S : ℝ) + 16 * (CreateIcons.heart_size S : ℝ) / 32 := by
  have hhs := CreateIcons.hs_cast_nonneg S
  unfold CreateIcons.bbXmax
  apply le_antisymm
  · apply Finset.sup'_le
    intro i hi
    unfold CreateIcons.heartPt
    have hx := (abs_le.1 (heartXc_abs_le (CreateIcons.t i))).2
    have := mul_le_mul_of_nonneg_right hx hhs
    simp only
    linarith
  · have h18 : (18 : ℕ) ∈ Finset.range 72 := by norm_num
    have hv : (CreateIcons.center_x S : ℝ) + 16 * (CreateIcons.heart_size S : ℝ) / 32 =
        (CreateIcons.heartPt S 18).1 := by
      unfold CreateIcons.heartPt
      rw [CreateIcons.t_18, heartXc_at_pi_div_two]
    rw [hv]
    exact Finset.le_sup' (fun i => (CreateIcons.heartPt S i).1) h18

/-- The minimal heart abscissa of `create_icons` is attained at 270°. -/
theorem CreateIcons.bbXmin_eq (S : ℕ) :
    CreateIcons.bbXmin S =
      (CreateIcons.center_x S : ℝ) - 16 * (CreateIcons.heart_size S : ℝ) / 32 := by
  have hhs := CreateIcons.hs_cast_nonneg S
  unfold CreateIcons.bbXmin
  apply le_antisymm
  · have h54 : (54 : ℕ) ∈ Finset.range 72 := by norm_num
    have hv : (CreateIcons.center_x S : ℝ) - 16 * (CreateIcons.heart_size S : ℝ) / 32 =
        (CreateIcons.heartPt S 54).1 := by
      unfold CreateIcons.heartPt
      rw [CreateIcons.t_54, heartXc_at_three_pi_div_two]
      ring
    rw [hv]
    exact Finset.inf'_le (fun i => (CreateIcons.heartPt S i).1) h54
  · apply Finset.le_inf'
    intro i hi
    unfold CreateIcons.heartPt
    have hx := (abs_le.1 (heartXc_abs_le (CreateIcons.t i))).1
    have := mul_le_mul_of_nonneg_right hx hhs
    simp only
    linarith

/-- The heart glyph of `create_icons` is horizontally centred exactly. -/
theorem CreateIcons.bboxCx_eq (S : ℕ) :
    CreateIcons.bboxCx S = (CreateIcons.center_x S : ℝ) := by
  unfold CreateIcons.bboxCx
  rw [CreateIcons.bbXmin_eq, CreateIcons.bbXmax_eq]
  ring

/-- Lower bound on the maximal heart ordinate of `create_icons`
(the bottom tip at 180°). -/
theorem CreateIcons.bbYmax_lb (S : ℕ) :
    (CreateIcons.center_y S : ℝ) + 17 * (CreateIcons.heart_size S : ℝ) / 32 ≤
      CreateIcons.bbYmax S := by
  unfold CreateIcons.bbYmax
  have h36 : (36 : ℕ) ∈ Finset.range 72 := by norm_num
  have hv : (CreateIcons.center_y S : ℝ) + 17 * (CreateIcons.heart_size S : ℝ) / 32 =
      (CreateIcons.heartPt S 36).2 := by
    unfold CreateIcons.heartPt
    rw [CreateIcons.t_36, heartYc_at_pi]
  rw [hv]
  exact Finset.le_sup' (fun i => (CreateIcons.heartPt S i).2) h36

/-- Lower bound on the minimal heart ordinate of `create_icons`. -/
theorem CreateIcons.bbYmin_lb (S : ℕ) :
    (CreateIcons.center_y S : ℝ) - 16 * (CreateIcons.heart_size S : ℝ) / 32 ≤
      CreateIcons.bbYmin S := by
  unfold CreateIcons.bbYmin
  apply Finset.le_inf'
  intro i hi
  unfold CreateIcons.heartPt
  have hy : -16 ≤ heartYc (CreateIcons.t i) := by
    rw [heartYc_eq_poly]
    exact heartPoly_ge_neg16 _
  have := mul_le_mul_of_nonneg_right hy (CreateIcons.hs_cast_nonneg S)
  simp only
  linarith

/-- The `create_icons` bbox centre sits at least `heart_size/64` pixels
below the canvas centre row. -/
theorem CreateIcons.bboxCy_lb (S : ℕ) :
    (CreateIcons.center_y S : ℝ) + (CreateIcons.heart_size S : ℝ) / 64 ≤
      CreateIcons.bboxCy S := by
  have h1 := CreateIcons.bbYmax_lb S
  have h2 := CreateIcons.bbYmin_lb S
  unfold CreateIcons.bboxCy
  linarith

/-- The `create_beautiful_icons` bbox centre is horizontally within
`heart_size/800` of the canvas centre column. -/
theorem BeautifulIcons.bboxCx_close (S : ℕ) :
    |BeautifulIcons.bboxCx S - (BeautifulIcons.center_x S : ℝ)| ≤
      (BeautifulIcons.heart_size S : ℝ) / 800 := by
  have hhs := BeautifulIcons.hs_cast_nonneg_beaut S
  have hXub : BeautifulIcons.bbXmax S ≤
      (BeautifulIcons.center_x S : ℝ) + 16 * ((BeautifulIcons.heart_size S : ℝ) / 20) := by
    unfold BeautifulIcons.bbXmax
    apply Finset.sup'_le
    intro i hi
    unfold BeautifulIcons.heartPt
    have hx := (abs_le.1 (heartXc_abs_le (BeautifulIcons.t i))).2
    have := mul_le_mul_of_nonneg_right hx (by linarith : (0:ℝ) ≤ (BeautifulIcons.heart_size S : ℝ) / 20)
    simp only
    linarith
  have hXlb : (BeautifulIcons.center_x S : ℝ) +
      16 * (999 / 1000) ^ 3 * ((BeautifulIcons.heart_size S : ℝ) / 20) ≤
        BeautifulIcons.bbXmax S := by
    have h31 : (31 : ℕ) ∈ Finset.range 126 := by norm_num
    have hv : (BeautifulIcons.center_x S : ℝ) +
        16 * (999 / 1000) ^ 3 * ((BeautifulIcons.heart_size S : ℝ) / 20) ≤
          (BeautifulIcons.heartPt S 31).1 := by
      unfold BeautifulIcons.heartPt
      rw [BeautifulIcons.t_31]
      have hx := heartXc_155_lb
      have := mul_le_mul_of_nonneg_right hx
        (by linarith : (0:ℝ) ≤ (BeautifulIcons.heart_size S : ℝ) / 20)
      simp only
      linarith
    refine le_trans hv ?_
    unfold BeautifulIcons.bbXmax
    exact Finset.le_sup' (fun i => (BeautifulIcons.heartPt S i).1) h31
  have hNub : BeautifulIcons.bbXmin S ≤ (BeautifulIcons.center_x S : ℝ) -
      16 * (999 / 1000) ^ 3 * ((BeautifulIcons.heart_size S : ℝ) / 20) := by
    have h94 : (94 : ℕ) ∈ Finset.range 126 := by norm_num
    have hv : (BeautifulIcons.heartPt S 94).1 ≤ (BeautifulIcons.center_x S : ℝ) -
        16 * (999 / 1000) ^ 3 * ((BeautifulIcons.heart_size S : ℝ) / 20) := by
      unfold BeautifulIcons.heartPt
      rw [BeautifulIcons.t_94]
      have hx := heartXc_47_ub
      have := mul_le_mul_of_nonneg_right hx
        (by linarith : (0:ℝ) ≤ (BeautifulIcons.heart_size S : ℝ) / 20)
      simp only
      linarith
    refine le_trans ?_ hv
    unfold BeautifulIcons.bbXmin
    exact Finset.inf'_le (fun i => (BeautifulIcons.heartPt S i).1) h94
  have hNlb : (BeautifulIcons.center_x S : ℝ) -
      16 * ((BeautifulIcons.heart_size S : ℝ) / 20) ≤ BeautifulIcons.bbXmin S := by
    unfold BeautifulIcons.bbXmin
    apply Finset.le_inf'
    intro i hi
    unfold BeautifulIcons.heartPt
    have hx := (abs_le.1 (heartXc_abs_le (BeautifulIcons.t i))).1
    have := mul_le_mul_of_nonneg_right hx
      (by linarith : (0:ℝ) ≤ (BeautifulIcons.heart_size S : ℝ) / 20)
    simp only
    linarith
  unfold BeautifulIcons.bboxCx
  rw [abs_le]
  constructor <;> nlinarith

/-- The `create_beautiful_icons` bbox centre sits at least `9·heart_size/400`
pixels below the canvas centre row. -/
theorem BeautifulIcons.bboxCy_lb_beaut (S : ℕ) :
    (BeautifulIcons.center_y S : ℝ) + 9 * (BeautifulIcons.heart_size S : ℝ) / 400 ≤
      BeautifulIcons.bboxCy S := by
  have hhs := BeautifulIcons.hs_cast_nonneg_beaut S
  have hYmax : (BeautifulIcons.center_y S : ℝ) +
      (169 / 10) * ((BeautifulIcons.heart_size S : ℝ) / 20) ≤ BeautifulIcons.bbYmax S := by
    have h63 : (63 : ℕ) ∈ Finset.range 126 := by norm_num
    have hv : (BeautifulIcons.center_y S : ℝ) +
        (169 / 10) * ((BeautifulIcons.heart_size S : ℝ) / 20) ≤
          (BeautifulIcons.heartPt S 63).2 := by
      unfold BeautifulIcons.heartPt
      rw [BeautifulIcons.t_63]
      have hy := heartYc_315_lb
      have := mul_le_mul_of_nonneg_right hy
        (by linarith : (0:ℝ) ≤ (BeautifulIcons.heart_size S : ℝ) / 20)
      simp only
      linarith
    refine le_trans hv ?_
    unfold BeautifulIcons.bbYmax
    exact Finset.le_sup' (fun i => (BeautifulIcons.heartPt S i).2) h63
  have hYmin : (BeautifulIcons.center_y S : ℝ) -
      16 * ((BeautifulIcons.heart_size S : ℝ) / 20) ≤ BeautifulIcons.bbYmin S := by
    unfold BeautifulIcons.bbYmin
    apply Finset.le_inf'
    intro i hi
    unfold BeautifulIcons.heartPt
    have hy : -16 ≤ heartYc (BeautifulIcons.t i) := by
      rw [heartYc_eq_poly]
      exact heartPoly_ge_neg16 _
    have := mul_le_mul_of_nonneg_right hy
      (by linarith : (0:ℝ) ≤ (BeautifulIcons.heart_size S : ℝ) / 20)
    simp only
    linarith
  unfold BeautifulIcons.bboxCy
  linarith

/-- C4 counterexample: at catalog size 1024 (`create_icons` style) the
bounding-box centre of the heart polygon lies at least `341/64 ≈ 5.3`
pixels below row 512, so it is not within 1 pixel of `(S/2, S/2)`. -/
theorem claim_C4_counterexample : ¬claimC4 := by
  intro h
  have h1024 := (h 1024 (by decide)).2.2
  have hcy : (CreateIcons.center_y 1024 : ℝ) = 512 := by
    have : CreateIcons.center_y 1024 = 512 := by decide
    rw [this]
    norm_num
  have hhs : (CreateIcons.heart_size 1024 : ℝ) = 341 := by
    have : CreateIcons.heart_size 1024 = 341 := by decide
    rw [this]
    norm_num
  have hlb := CreateIcons.bboxCy_lb 1024
  rw [hcy, hhs] at hlb
  have habs := (abs_le.1 h1024).2
  have h512 : ((1024 : ℕ) : ℝ) / 2 = 512 := by norm_num
  rw [h512] at habs
  linarith

/-- C4 amended: for every catalog size and both heart styles the
bounding-box centre is within 1 pixel of `S/2` horizontally, but
vertically it always sits below the canvas centre row — by at least
`heart_size/64` (`create_icons`) resp. `9·heart_size/400`
(`create_beautiful_icons`) pixels — and at S = 1024 this downward
displacement exceeds 1 pixel, so the claimed ±1 y-centering fails for
large sizes. -/
theorem claim_C4_amended :
    (∀ S ∈ catalog,
      |CreateIcons.bboxCx S - (S : ℝ) / 2| ≤ 1 ∧
      |BeautifulIcons.bboxCx S - (S : ℝ) / 2| ≤ 1 ∧
      (CreateIcons.center_y S : ℝ) + (CreateIcons.heart_size S : ℝ) / 64 ≤
        CreateIcons.bboxCy S ∧
      (BeautifulIcons.center_y S : ℝ) + 9 * (BeautifulIcons.heart_size S : ℝ) / 400 ≤
        BeautifulIcons.bboxCy S) ∧
    1 < CreateIcons.bboxCy 1024 - 512 := by
  constructor
  · intro S hS
    refine ⟨?_, ?_, CreateIcons.bboxCy_lb S, BeautifulIcons.bboxCy_lb_beaut S⟩
    · rw [CreateIcons.bboxCx_eq]
      have h2 : |(CreateIcons.center_x S : ℝ) - (S : ℝ) / 2| ≤ 1 / 2 := by
        unfold CreateIcons.center_x
        exact halfInt_close S
      linarith
    · have h1 := BeautifulIcons.bboxCx_close S
      have h2 : |(BeautifulIcons.center_x S : ℝ) - (S : ℝ) / 2| ≤ 1 / 2 := by
        unfold BeautifulIcons.center_x
        exact halfInt_close S
      have h3 : (BeautifulIcons.heart_size S : ℝ) ≤ 400 := by
        have hS' : S ≤ 1024 := by
          fin_cases hS <;> norm_num
        have : BeautifulIcons.heart_size S ≤ 400 := by
          unfold BeautifulIcons.heart_size
          omega
        exact_mod_cast this
      calc |BeautifulIcons.bboxCx S - (S : ℝ) / 2| ≤
          |BeautifulIcons.bboxCx S - (BeautifulIcons.center_x S : ℝ)| +
            |(BeautifulIcons.center_x S : ℝ) - (S : ℝ) / 2| := abs_sub_le _ _ _
        _ ≤ 1 := by linarith
  · have hcy : (CreateIcons.center_y 1024 : ℝ) = 512 := by
      have : CreateIcons.center_y 1024 = 512 := by decide
      rw [this]
      norm_num
    have hhs : (CreateIcons.heart_size 1024 : ℝ) = 341 := by
      have : CreateIcons.heart_size 1024 = 341 := by decide
      rw [this]
      norm_num
    have hlb := CreateIcons.bboxCy_lb 1024
    rw [hcy, hhs] at hlb
    linarith

/-- Witness for the amended C4 at catalog size 20. -/
theorem claim_C4_amended_witness :
    20 ∈ catalog ∧ |CreateIcons.bboxCx 20 - (20 : ℝ) / 2| ≤ 1 :=
  ⟨by decide, (claim_C4_amended.1 20 (by decide)).1⟩

/- ## Claim C5: corner pixels under the rounded-corner mask -/

/-- A corner pixel lies outside the rounded square, except possibly the
bottom-right one, which needs radius at least 4. -/
theorem corner_not_inRoundedSquare (Sr rad px py : ℝ) (hr : 2 ≤ rad) (h3r : 3 * rad < Sr)
    (hx : px = 0 ∨ px = Sr - 1) (hy : py = 0 ∨ py = Sr - 1)
    (hbr : ¬(px = Sr - 1 ∧ py = Sr - 1) ∨ 4 ≤ rad) :
    ¬inRoundedSquare Sr rad (px, py) := by
  unfold inRoundedSquare inDisc
  simp only
  rintro ⟨h1, h2, h3, h4, hc⟩
  rcases hx with rfl | rfl <;> rcases hy with rfl | rfl
  · rcases hc with ⟨ha, hb⟩ | ⟨ha, hb⟩ | hd | hd | hd | hd <;>
      first
        | linarith
        | nlinarith [sq_nonneg rad, sq_nonneg (Sr - 3 * rad), sq_nonneg (Sr - 1 - 2 * rad)]
  · rcases hc with ⟨ha, hb⟩ | ⟨ha, hb⟩ | hd | hd | hd | hd <;>
      first
        | linarith
        | nlinarith [sq_nonneg rad, sq_nonneg (Sr - 3 * rad), sq_nonneg (Sr - 1 - 2 * rad)]
  · rcases hc with ⟨ha, hb⟩ | ⟨ha, hb⟩ | hd | hd | hd | hd <;>
      first
        | linarith
        | nlinarith [sq_nonneg rad, sq_nonneg (Sr - 3 * rad), sq_nonneg (Sr - 1 - 2 * rad)]
  · have hrad4 : 4 ≤ rad := by
      rcases hbr with hc' | hc'
      · exact absurd ⟨rfl, rfl⟩ hc'
      · exact hc'
    rcases hc with ⟨ha, hb⟩ | ⟨ha, hb⟩ | hd | hd | hd | hd <;>
      first
        | linarith
        | nlinarith [sq_nonneg rad, sq_nonneg (Sr - 3 * rad), sq_nonneg (Sr - 1 - 2 * rad),
            sq_nonneg (rad - 4), mul_nonneg (show (0:ℝ) ≤ rad - 4 by linarith)
              (show (0:ℝ) ≤ rad - 2 by linarith)]

/-- With radius at most `(2+√2)`-ish (here: the concrete inequality
`2(rad-1)² ≤ rad²`), the bottom-right corner pixel falls inside the
rounded square. -/
theorem bottomRight_inRoundedSquare (Sr rad : ℝ) (hS : 2 ≤ Sr) (hr : 0 ≤ rad)
    (hrS : rad ≤ Sr) (hd : (rad - 1) ^ 2 + (rad - 1) ^ 2 ≤ rad ^ 2) :
    inRoundedSquare Sr rad (Sr - 1, Sr - 1) := by
  unfold inRoundedSquare
  refine ⟨by simp only; linarith, by simp only; linarith, by simp only; linarith,
    by simp only; linarith, Or.inr (Or.inr (Or.inr (Or.inr (Or.inr ?_))))⟩
  unfold inDisc
  simp only
  nlinarith

/-- Every heart vertex ordinate of `create_icons` is within `21·hs/32` of
the centre row. -/
theorem CreateIcons.heartPt_y_close (S i : ℕ) :
    |(CreateIcons.heartPt S i).2 - (CreateIcons.center_y S : ℝ)| ≤
      21 * (CreateIcons.heart_size S : ℝ) / 32 := by
  unfold CreateIcons.heartPt
  simp only
  have h := abs_le.1 (heartYc_abs_le (CreateIcons.t i))
  have hhs := CreateIcons.hs_cast_nonneg S
  rw [abs_le]
  constructor <;>
    nlinarith [mul_le_mul_of_nonneg_right h.1 hhs, mul_le_mul_of_nonneg_right h.2 hhs]

open Classical in
/-- At corner pixels, a `create_icons` pixel reduces to the rounded-mask
composite of gradient over flat white: no glyph shape reaches any corner
row. -/
theorem CreateIcons.corner_reduce (S : ℕ) (hS : 20 ≤ S) (x y : ℕ)
    (hx : (x : ℝ) = 0 ∨ (x : ℝ) = (S : ℝ) - 1)
    (hy : (y : ℝ) = 0 ∨ (y : ℝ) = (S : ℝ) - 1) :
    CreateIcons.px S x y =
      if inRoundedSquare (S : ℝ) (CreateIcons.corner_radius S : ℝ) ((x : ℝ), (y : ℝ)) then
        CreateIcons.gradRow S y
      else ⟨255, 255, 255⟩ := by
  have hZplus : 0 < CreateIcons.plus_y S - CreateIcons.plus_size S ∧
      CreateIcons.plus_y S + CreateIcons.plus_size S < (S : ℤ) - 1 ∧
      CreateIcons.plus_thickness S / 2 ≤ CreateIcons.plus_size S ∧
      0 ≤ CreateIcons.plus_size S := by
    unfold CreateIcons.plus_y CreateIcons.plus_size CreateIcons.plus_thickness
      CreateIcons.center_y CreateIcons.heart_size
    omega
  have hZheart : 0 < 32 * CreateIcons.center_y S - 21 * CreateIcons.heart_size S ∧
      32 * CreateIcons.center_y S + 21 * CreateIcons.heart_size S + 64 < 32 * ((S : ℤ) - 1) := by
    unfold CreateIcons.center_y CreateIcons.heart_size
    omega
  have hRplus1 : (0 : ℝ) < (CreateIcons.plus_y S : ℝ) - (CreateIcons.plus_size S : ℝ) := by
    exact_mod_cast hZplus.1
  have hRplus2 : (CreateIcons.plus_y S : ℝ) + (CreateIcons.plus_size S : ℝ) < (S : ℝ) - 1 := by
    exact_mod_cast hZplus.2.1
  have hRpt : ((CreateIcons.plus_thickness S / 2 : ℤ) : ℝ) ≤ (CreateIcons.plus_size S : ℝ) := by
    exact_mod_cast hZplus.2.2.1
  have hRps0 : (0 : ℝ) ≤ (CreateIcons.plus_size S : ℝ) := by
    exact_mod_cast hZplus.2.2.2
  have hRheart1 : (0 : ℝ) <
      32 * (CreateIcons.center_y S : ℝ) - 21 * (CreateIcons.heart_size S : ℝ) := by
    exact_mod_cast hZheart.1
  have hRheart2 : 32 * (CreateIcons.center_y S : ℝ) + 21 * (CreateIcons.heart_size S : ℝ) + 64 <
      32 * ((S : ℝ) - 1) := by
    exact_mod_cast hZheart.2
  simp only [CreateIcons.px]
  rw [if_neg, if_neg, if_neg, if_neg, if_neg]
  · -- shadow polygon
    rcases hy with h | h
    · apply not_inPolygon_of_y_gt
      intro i hi
      have hc := abs_le.1 (CreateIcons.heartPt_y_close S i)
      unfold CreateIcons.shadowPt
      simp only
      rw [h]
      linarith [hc.1]
    · apply not_inPolygon_of_y_lt
      intro i hi
      have hc := abs_le.1 (CreateIcons.heartPt_y_close S i)
      unfold CreateIcons.shadowPt
      simp only
      rw [h]
      linarith [hc.2]
  · -- heart polygon
    rcases hy with h | h
    · apply not_inPolygon_of_y_gt
      intro i hi
      have hc := abs_le.1 (CreateIcons.heartPt_y_close S i)
      simp only
      rw [h]
      linarith [hc.1]
    · apply not_inPolygon_of_y_lt
      intro i hi
      have hc := abs_le.1 (CreateIcons.heartPt_y_close S i)
      simp only
      rw [h]
      linarith [hc.2]
  · -- plus background circle
    apply not_inDisc_of_y
    simp only
    rcases hy with h | h <;> rw [h] <;> nlinarith
  · -- vertical plus bar
    intro hcon
    obtain ⟨-, -, h3, h4⟩ := hcon
    simp only at h3 h4
    rcases hy with h | h <;> rw [h] at h3 h4 <;> linarith
  · -- horizontal plus bar
    intro hcon
    obtain ⟨-, -, h3, h4⟩ := hcon
    simp only at h3 h4
    rcases hy with h | h <;> rw [h] at h3 h4 <;> linarith

/-- Cast bundle: radius facts for the `create_icons` rounded mask. -/
theorem CreateIcons.radius_facts (S : ℕ) (hS : 20 ≤ S) :
    (2 : ℝ) ≤ (CreateIcons.corner_radius S : ℝ) ∧
    3 * (CreateIcons.corner_radius S : ℝ) < (S : ℝ) := by
  have hZ : 2 ≤ CreateIcons.corner_radius S ∧ 3 * CreateIcons.corner_radius S < (S : ℤ) := by
    unfold CreateIcons.corner_radius
    omega
  exact ⟨by exact_mod_cast hZ.1, by exact_mod_cast hZ.2⟩

/-- Safe corner pixels of a `create_icons` icon show the flat white fill. -/
theorem CreateIcons.corner_px (S : ℕ) (hS : 20 ≤ S) (x y : ℕ)
    (hx : (x : ℝ) = 0 ∨ (x : ℝ) = (S : ℝ) - 1)
    (hy : (y : ℝ) = 0 ∨ (y : ℝ) = (S : ℝ) - 1)
    (hbr : ¬((x : ℝ) = (S : ℝ) - 1 ∧ (y : ℝ) = (S : ℝ) - 1) ∨
      4 ≤ (CreateIcons.corner_radius S : ℝ)) :
    CreateIcons.px S x y = ⟨255, 255, 255⟩ := by
  rw [CreateIcons.corner_reduce S hS x y hx hy, if_neg]
  exact corner_not_inRoundedSquare (S : ℝ) (CreateIcons.corner_radius S : ℝ) (x : ℝ) (y : ℝ)
    (CreateIcons.radius_facts S hS).1 (CreateIcons.radius_facts S hS).2 hx hy hbr

/-- Every heart vertex ordinate of `create_beautiful_icons` is within
`21·hs/20` of the centre row. -/
theorem BeautifulIcons.heartPt_y_close_beaut (S i : ℕ) :
    |(BeautifulIcons.heartPt S i).2 - (BeautifulIcons.center_y S : ℝ)| ≤
      21 * (BeautifulIcons.heart_size S : ℝ) / 20 := by
  unfold BeautifulIcons.heartPt
  simp only
  have h := abs_le.1 (heartYc_abs_le (BeautifulIcons.t i))
  have hhs := BeautifulIcons.hs_cast_nonneg_beaut S
  rw [abs_le]
  constructor <;>
    nlinarith [mul_le_mul_of_nonneg_right h.1 hhs, mul_le_mul_of_nonneg_right h.2 hhs]

/-- Vertical layout facts of the beautiful icon, cast to the reals: the
heart band (padded by shadow and highlight offsets), the plus badge and the
gear badge all stay strictly between the first and last pixel rows. -/
theorem BeautifulIcons.layout_facts (S : ℕ) (hS : 20 ≤ S) :
    ((0 : ℝ) < 20 * (BeautifulIcons.center_y S : ℝ) -
        21 * (BeautifulIcons.heart_size S : ℝ) -
        20 * ((BeautifulIcons.shadow_offset S / 2 : ℤ) : ℝ) ∧
      20 * (BeautifulIcons.center_y S : ℝ) + 21 * (BeautifulIcons.heart_size S : ℝ) +
        20 * (BeautifulIcons.shadow_offset S : ℝ) < 20 * ((S : ℝ) - 1) ∧
      (0 : ℝ) ≤ (BeautifulIcons.shadow_offset S : ℝ) ∧
      (0 : ℝ) ≤ ((BeautifulIcons.shadow_offset S / 2 : ℤ) : ℝ)) ∧
    ((0 : ℝ) < (BeautifulIcons.plus_y S : ℝ) - (BeautifulIcons.plus_bg_radius S : ℝ) ∧
      (BeautifulIcons.plus_y S : ℝ) + (BeautifulIcons.plus_bg_radius S : ℝ) < (S : ℝ) - 1 ∧
      ((BeautifulIcons.plus_thickness S / 2 : ℤ) : ℝ) ≤ (BeautifulIcons.plus_bg_radius S : ℝ) ∧
      ((BeautifulIcons.plus_size S / 2 : ℤ) : ℝ) ≤ (BeautifulIcons.plus_bg_radius S : ℝ) ∧
      (0 : ℝ) ≤ (BeautifulIcons.plus_bg_radius S : ℝ)) ∧
    ((0 : ℝ) < (BeautifulIcons.gear_y S : ℝ) - (BeautifulIcons.gear_radius S : ℝ) - 3 ∧
      (BeautifulIcons.gear_y S : ℝ) + (BeautifulIcons.gear_radius S : ℝ) + 3 < (S : ℝ) - 1 ∧
      (BeautifulIcons.inner_radius S : ℝ) ≤ (BeautifulIcons.gear_radius S : ℝ) ∧
      (0 : ℝ) ≤ (BeautifulIcons.gear_radius S : ℝ) ∧
      (0 : ℝ) ≤ (BeautifulIcons.inner_radius S : ℝ)) := by
  have hZ : (0 < 20 * BeautifulIcons.center_y S - 21 * BeautifulIcons.heart_size S -
        20 * (BeautifulIcons.shadow_offset S / 2) ∧
      20 * BeautifulIcons.center_y S + 21 * BeautifulIcons.heart_size S +
        20 * BeautifulIcons.shadow_offset S < 20 * ((S : ℤ) - 1) ∧
      0 ≤ BeautifulIcons.shadow_offset S ∧
      0 ≤ BeautifulIcons.shadow_offset S / 2) ∧
    (0 < BeautifulIcons.plus_y S - BeautifulIcons.plus_bg_radius S ∧
      BeautifulIcons.plus_y S + BeautifulIcons.plus_bg_radius S < (S : ℤ) - 1 ∧
      BeautifulIcons.plus_thickness S / 2 ≤ BeautifulIcons.plus_bg_radius S ∧
      BeautifulIcons.plus_size S / 2 ≤ BeautifulIcons.plus_bg_radius S ∧
      0 ≤ BeautifulIcons.plus_bg_radius S) ∧
    (0 < BeautifulIcons.gear_y S - BeautifulIcons.gear_radius S - 3 ∧
      BeautifulIcons.gear_y S + BeautifulIcons.gear_radius S + 3 < (S : ℤ) - 1 ∧
      BeautifulIcons.inner_radius S ≤ BeautifulIcons.gear_radius S ∧
      0 ≤ BeautifulIcons.gear_radius S ∧
      0 ≤ BeautifulIcons.inner_radius S) := by
    simp only [BeautifulIcons.center_y, BeautifulIcons.heart_size,
      BeautifulIcons.shadow_offset, BeautifulIcons.plus_y, BeautifulIcons.plus_bg_radius,
      BeautifulIcons.plus_thickness, BeautifulIcons.plus_size, BeautifulIcons.gear_y,
      BeautifulIcons.gear_radius, BeautifulIcons.inner_radius, BeautifulIcons.gear_size,
      BeautifulIcons.center_x]
    omega
  refine ⟨⟨?_, ?_, ?_, ?_⟩, ⟨?_, ?_, ?_, ?_, ?_⟩, ⟨?_, ?_, ?_, ?_, ?_⟩⟩
  · exact_mod_cast hZ.1.1
  · exact_mod_cast hZ.1.2.1
  · exact_mod_cast hZ.1.2.2.1
  · exact_mod_cast hZ.1.2.2.2
  · exact_mod_cast hZ.2.1.1
  · exact_mod_cast hZ.2.1.2.1
  · exact_mod_cast hZ.2.1.2.2.1
  · exact_mod_cast hZ.2.1.2.2.2.1
  · exact_mod_cast hZ.2.1.2.2.2.2
  · exact_mod_cast hZ.2.2.1
  · exact_mod_cast hZ.2.2.2.1
  · exact_mod_cast hZ.2.2.2.2.1
  · exact_mod_cast hZ.2.2.2.2.2.1
  · exact_mod_cast hZ.2.2.2.2.2.2

/-- Every vertex of every gear tooth is within `gear_radius + 3` of the
gear centre row. -/
theorem BeautifulIcons.tooth_y_close (S i j : ℕ) (hg : (0 : ℝ) ≤ (BeautifulIcons.gear_radius S : ℝ)) :
    |(BeautifulIcons.toothPt S i j).2 - (BeautifulIcons.gear_y S : ℝ)| ≤
      (BeautifulIcons.gear_radius S : ℝ) + 3 := by
  unfold BeautifulIcons.toothPt
  split_ifs <;> simp only <;> rw [abs_le] <;> constructor <;>
    nlinarith [Real.neg_one_le_sin (BeautifulIcons.toothAngle i),
      Real.sin_le_one (BeautifulIcons.toothAngle i),
      Real.neg_one_le_sin (BeautifulIcons.toothAngle i - 0.2),
      Real.sin_le_one (BeautifulIcons.toothAngle i - 0.2),
      Real.neg_one_le_sin (BeautifulIcons.toothAngle i + 0.2),
      Real.sin_le_one (BeautifulIcons.toothAngle i + 0.2)]

/-- Data-dot centre 0, with the trigonometry evaluated. -/
theorem BeautifulIcons.dotCenter_0 (S : ℕ) :
    BeautifulIcons.dotCenter S 0 =
      ((BeautifulIcons.center_x S : ℝ) + (BeautifulIcons.dot_distance S : ℝ),
       (BeautifulIcons.center_y S : ℝ)) := by
  unfold BeautifulIcons.dotCenter BeautifulIcons.dotAngle
  have h : 2 * Real.pi * ((0 : ℕ) : ℝ) / 6 = 0 := by push_cast; ring
  rw [h, Real.cos_zero, Real.sin_zero]
  simp only [Prod.mk.injEq]
  constructor <;> ring

/-- Data-dot centre 1, with the trigonometry evaluated. -/
theorem BeautifulIcons.dotCenter_1 (S : ℕ) :
    BeautifulIcons.dotCenter S 1 =
      ((BeautifulIcons.center_x S : ℝ) + (BeautifulIcons.dot_distance S : ℝ) * (1 / 2),
       (BeautifulIcons.center_y S : ℝ) +
         (BeautifulIcons.dot_distance S : ℝ) * (Real.sqrt 3 / 2)) := by
  unfold BeautifulIcons.dotCenter BeautifulIcons.dotAngle
  have h : 2 * Real.pi * ((1 : ℕ) : ℝ) / 6 = Real.pi / 3 := by push_cast; ring
  rw [h, Real.cos_pi_div_three, Real.sin_pi_div_three]

/-- Data-dot centre 2, with the trigonometry evaluated. -/
theorem BeautifulIcons.dotCenter_2 (S : ℕ) :
    BeautifulIcons.dotCenter S 2 =
      ((BeautifulIcons.center_x S : ℝ) - (BeautifulIcons.dot_distance S : ℝ) * (1 / 2),
       (BeautifulIcons.center_y S : ℝ) +
         (BeautifulIcons.dot_distance S : ℝ) * (Real.sqrt 3 / 2)) := by
  unfold BeautifulIcons.dotCenter BeautifulIcons.dotAngle
  have h : 2 * Real.pi * ((2 : ℕ) : ℝ) / 6 = Real.pi - Real.pi / 3 := by push_cast; ring
  rw [h, Real.cos_pi_sub, Real.sin_pi_sub, Real.cos_pi_div_three, Real.sin_pi_div_three]
  simp only [Prod.mk.injEq]
  constructor <;> ring

/-- Data-dot centre 3, with the trigonometry evaluated. -/
theorem BeautifulIcons.dotCenter_3 (S : ℕ) :
    BeautifulIcons.dotCenter S 3 =
      ((BeautifulIcons.center_x S : ℝ) - (BeautifulIcons.dot_distance S : ℝ),
       (BeautifulIcons.center_y S : ℝ)) := by
  unfold BeautifulIcons.dotCenter BeautifulIcons.dotAngle
  have h : 2 * Real.pi * ((3 : ℕ) : ℝ) / 6 = Real.pi := by push_cast; ring
  rw [h, Real.cos_pi, Real.sin_pi]
  simp only [Prod.mk.injEq]
  constructor <;> ring

/-- Data-dot centre 4, with the trigonometry evaluated. -/
theorem BeautifulIcons.dotCenter_4 (S : ℕ) :
    BeautifulIcons.dotCenter S 4 =
      ((BeautifulIcons.center_x S : ℝ) - (BeautifulIcons.dot_distance S : ℝ) * (1 / 2),
       (BeautifulIcons.center_y S : ℝ) -
         (BeautifulIcons.dot_distance S : ℝ) * (Real.sqrt 3 / 2)) := by
  unfold BeautifulIcons.dotCenter BeautifulIcons.dotAngle
  have h : 2 * Real.pi * ((4 : ℕ) : ℝ) / 6 = Real.pi + Real.pi / 3 := by push_cast; ring
  rw [h, cos_pi_add, sin_pi_add, Real.cos_pi_div_three, Real.sin_pi_div_three]
  simp only [Prod.mk.injEq]
  constructor <;> ring

/-- Data-dot centre 5, with the trigonometry evaluated. -/
theorem BeautifulIcons.dotCenter_5 (S : ℕ) :
    BeautifulIcons.dotCenter S 5 =
      ((BeautifulIcons.center_x S : ℝ) + (BeautifulIcons.dot_distance S : ℝ) * (1 / 2),
       (BeautifulIcons.center_y S : ℝ) -
         (BeautifulIcons.dot_distance S : ℝ) * (Real.sqrt 3 / 2)) := by
  unfold BeautifulIcons.dotCenter BeautifulIcons.dotAngle
  have h : 2 * Real.pi * ((5 : ℕ) : ℝ) / 6 = Real.pi + (Real.pi - Real.pi / 3) := by
    push_cast; ring
  rw [h, cos_pi_add, sin_pi_add, Real.cos_pi_sub, Real.sin_pi_sub,
    Real.cos_pi_div_three, Real.sin_pi_div_three]
  simp only [Prod.mk.injEq]
  constructor <;> ring

/-- Cast facts about the dot layout constants. -/
theorem BeautifulIcons.dot_facts (S : ℕ) (hS : 20 ≤ S) :
    2 * (BeautifulIcons.center_x S : ℝ) ≤ (S : ℝ) ∧
    (S : ℝ) ≤ 2 * (BeautifulIcons.center_x S : ℝ) + 1 ∧
    2 * (BeautifulIcons.center_y S : ℝ) ≤ (S : ℝ) ∧
    (S : ℝ) ≤ 2 * (BeautifulIcons.center_y S : ℝ) + 1 ∧
    (S : ℝ) + 58 ≤ 3 * (BeautifulIcons.dot_distance S : ℝ) ∧
    3 * (BeautifulIcons.dot_distance S : ℝ) ≤ (S : ℝ) + 60 ∧
    2 ≤ (BeautifulIcons.dot_radius S : ℝ) ∧
    100 * (BeautifulIcons.dot_radius S : ℝ) ≤ (S : ℝ) + 200 := by
  have hZ : 2 * BeautifulIcons.center_x S ≤ (S : ℤ) ∧
      (S : ℤ) ≤ 2 * BeautifulIcons.center_x S + 1 ∧
      2 * BeautifulIcons.center_y S ≤ (S : ℤ) ∧
      (S : ℤ) ≤ 2 * BeautifulIcons.center_y S + 1 ∧
      (S : ℤ) + 58 ≤ 3 * BeautifulIcons.dot_distance S ∧
      3 * BeautifulIcons.dot_distance S ≤ (S : ℤ) + 60 ∧
      2 ≤ BeautifulIcons.dot_radius S ∧
      100 * BeautifulIcons.dot_radius S ≤ (S : ℤ) + 200 := by
    simp only [BeautifulIcons.center_x, BeautifulIcons.center_y,
      BeautifulIcons.dot_distance, BeautifulIcons.dot_radius, BeautifulIcons.heart_size]
    omega
  exact ⟨by exact_mod_cast hZ.1, by exact_mod_cast hZ.2.1, by exact_mod_cast hZ.2.2.1,
    by exact_mod_cast hZ.2.2.2.1, by exact_mod_cast hZ.2.2.2.2.1,
    by exact_mod_cast hZ.2.2.2.2.2.1, by exact_mod_cast hZ.2.2.2.2.2.2.1,
    by exact_mod_cast hZ.2.2.2.2.2.2.2⟩

/-- A square comparison from a one-sided linear bound. -/
theorem sq_lt_sq_of_abs (R d : ℝ) (h0 : 0 ≤ R) (h : R < d ∨ R < -d) : R ^ 2 < d ^ 2 := by
  rcases h with h | h <;> nlinarith

/-- No corner pixel meets any of the six data dots. -/
theorem BeautifulIcons.dot_far (S : ℕ) (hS : 20 ≤ S) (px py : ℝ)
    (hx : px = 0 ∨ px = (S : ℝ) - 1) (hy : py = 0 ∨ py = (S : ℝ) - 1) :
    ¬∃ k, k < 6 ∧
      inDisc (BeautifulIcons.dotCenter S k) (BeautifulIcons.dot_radius S : ℝ) (px, py) := by
  obtain ⟨hA1, hA2, hB1, hB2, hD1, hD2, hR1, hR2⟩ := BeautifulIcons.dot_facts S hS
  have hS20 : (20 : ℝ) ≤ (S : ℝ) := by exact_mod_cast hS
  have hs3 : Real.sqrt 3 ^ 2 = 3 := Real.sq_sqrt (by norm_num)
  have hs30 : (0 : ℝ) ≤ Real.sqrt 3 := Real.sqrt_nonneg 3
  have hs3l : (17 / 10 : ℝ) ≤ Real.sqrt 3 := by nlinarith
  have hs3u : Real.sqrt 3 ≤ (9 / 5 : ℝ) := by nlinarith
  have hD0 : (0 : ℝ) ≤ (BeautifulIcons.dot_distance S : ℝ) := by linarith
  have hDsl : (17 / 10 : ℝ) * (BeautifulIcons.dot_distance S : ℝ) ≤
      (BeautifulIcons.dot_distance S : ℝ) * Real.sqrt 3 := by nlinarith
  have hDsu : (BeautifulIcons.dot_distance S : ℝ) * Real.sqrt 3 ≤
      (9 / 5 : ℝ) * (BeautifulIcons.dot_distance S : ℝ) := by nlinarith
  have hR0 : (0 : ℝ) ≤ (BeautifulIcons.dot_radius S : ℝ) := by linarith
  rintro ⟨k, hk, hd⟩
  interval_cases k
  · rw [BeautifulIcons.dotCenter_0] at hd
    revert hd
    apply not_inDisc_of_y
    simp only
    rcases hy with h | h <;> rw [h]
    · exact sq_lt_sq_of_abs _ _ hR0 (Or.inr (by linarith))
    · exact sq_lt_sq_of_abs _ _ hR0 (Or.inl (by linarith))
  · rw [BeautifulIcons.dotCenter_1] at hd
    revert hd
    rcases hx with h | h
    · apply not_inDisc_of_x
      simp only
      rw [h]
      exact sq_lt_sq_of_abs _ _ hR0 (Or.inr (by linarith))
    · rcases hy with h' | h'
      · apply not_inDisc_of_y
        simp only
        rw [h']
        exact sq_lt_sq_of_abs _ _ hR0 (Or.inr (by linarith))
      · rcases le_or_lt (S : ℝ) 55 with h55 | h55
        · apply not_inDisc_of_y
          simp only
          rw [h']
          exact sq_lt_sq_of_abs _ _ hR0 (Or.inr (by linarith))
        · apply not_inDisc_of_x
          simp only
          rw [h]
          exact sq_lt_sq_of_abs _ _ hR0 (Or.inl (by linarith))
  · rw [BeautifulIcons.dotCenter_2] at hd
    revert hd
    rcases hx with h | h
    · rcases hy with h' | h'
      · apply not_inDisc_of_y
        simp only
        rw [h']
        exact sq_lt_sq_of_abs _ _ hR0 (Or.inr (by linarith))
      · rcases le_or_lt (S : ℝ) 55 with h55 | h55
        · apply not_inDisc_of_y
          simp only
          rw [h']
          exact sq_lt_sq_of_abs _ _ hR0 (Or.inr (by linarith))
        · apply not_inDisc_of_x
          simp only
          rw [h]
          exact sq_lt_sq_of_abs _ _ hR0 (Or.inr (by linarith))
    · apply not_inDisc_of_x
      simp only
      rw [h]
      exact sq_lt_sq_of_abs _ _ hR0 (Or.inl (by linarith))
  · rw [BeautifulIcons.dotCenter_3] at hd
    revert hd
    apply not_inDisc_of_y
    simp only
    rcases hy with h | h <;> rw [h]
    · exact sq_lt_sq_of_abs _ _ hR0 (Or.inr (by linarith))
    · exact sq_lt_sq_of_abs _ _ hR0 (Or.inl (by linarith))
  · rw [BeautifulIcons.dotCenter_4] at hd
    revert hd
    rcases hx with h | h
    · rcases hy with h' | h'
      · rcases le_or_lt (S : ℝ) 55 with h55 | h55
        · apply not_inDisc_of_y
          simp only
          rw [h']
          exact sq_lt_sq_of_abs _ _ hR0 (Or.inl (by linarith))
        · apply not_inDisc_of_x
          simp only
          rw [h]
          exact sq_lt_sq_of_abs _ _ hR0 (Or.inr (by linarith))
      · apply not_inDisc_of_y
        simp only
        rw [h']
        exact sq_lt_sq_of_abs _ _ hR0 (Or.inl (by linarith))
    · apply not_inDisc_of_x
      simp only
      rw [h]
      exact sq_lt_sq_of_abs _ _ hR0 (Or.inl (by linarith))
  · rw [BeautifulIcons.dotCenter_5] at hd
    revert hd
    rcases hx with h | h
    · apply not_inDisc_of_x
      simp only
      rw [h]
      exact sq_lt_sq_of_abs _ _ hR0 (Or.inr (by linarith))
    · rcases hy with h' | h'
      · rcases le_or_lt (S : ℝ) 55 with h55 | h55
        · apply not_inDisc_of_y
          simp only
          rw [h']
          exact sq_lt_sq_of_abs _ _ hR0 (Or.inl (by linarith))
        · apply not_inDisc_of_x
          simp only
          rw [h]
          exact sq_lt_sq_of_abs _ _ hR0 (Or.inl (by linarith))
      · apply not_inDisc_of_y
        simp only
        rw [h']
        exact sq_lt_sq_of_abs _ _ hR0 (Or.inl (by linarith))

open Classical in
/-- At corner pixels, a beautiful-icon pixel reduces to the rounded-mask
composite of gradient over the light-grey background: no glyph or badge
reaches any corner. -/
theorem BeautifulIcons.corner_reduce_beaut (S : ℕ) (hS : 20 ≤ S) (x y : ℕ)
    (hx : (x : ℝ) = 0 ∨ (x : ℝ) = (S : ℝ) - 1)
    (hy : (y : ℝ) = 0 ∨ (y : ℝ) = (S : ℝ) - 1) :
    BeautifulIcons.px S x y =
      if inRoundedSquare (S : ℝ) (BeautifulIcons.corner_radius S : ℝ) ((x : ℝ), (y : ℝ)) then
        BeautifulIcons.gradRow S y
      else ⟨248, 249, 250⟩ := by
  obtain ⟨⟨hH1, hH2, hso0, hso20⟩, ⟨hp1, hp2, hpt, hps, hpb0⟩, ⟨hg1, hg2, hgi, hg0, hi0⟩⟩ :=
    BeautifulIcons.layout_facts S hS
  simp only [BeautifulIcons.px]
  rw [if_neg, if_neg, if_neg, if_neg, if_neg, if_neg, if_neg, if_neg, if_neg, if_neg]
  · -- shadow polygon
    rcases hy with h | h
    · apply not_inPolygon_of_y_gt
      intro i hi
      have hc := abs_le.1 (BeautifulIcons.heartPt_y_close_beaut S i)
      unfold BeautifulIcons.shadowPt
      simp only
      rw [h]
      linarith [hc.1]
    · apply not_inPolygon_of_y_lt
      intro i hi
      have hc := abs_le.1 (BeautifulIcons.heartPt_y_close_beaut S i)
      unfold BeautifulIcons.shadowPt
      simp only
      rw [h]
      linarith [hc.2]
  · -- heart polygon
    rcases hy with h | h
    · apply not_inPolygon_of_y_gt
      intro i hi
      have hc := abs_le.1 (BeautifulIcons.heartPt_y_close_beaut S i)
      simp only
      rw [h]
      linarith [hc.1]
    · apply not_inPolygon_of_y_lt
      intro i hi
      have hc := abs_le.1 (BeautifulIcons.heartPt_y_close_beaut S i)
      simp only
      rw [h]
      linarith [hc.2]
  · -- highlight polygon
    rcases hy with h | h
    · apply not_inPolygon_of_y_gt
      intro i hi
      have hc := abs_le.1 (BeautifulIcons.heartPt_y_close_beaut S i)
      unfold BeautifulIcons.highlightPt
      simp only
      rw [h]
      linarith [hc.1]
    · apply not_inPolygon_of_y_lt
      intro i hi
      have hc := abs_le.1 (BeautifulIcons.heartPt_y_close_beaut S i)
      unfold BeautifulIcons.highlightPt
      simp only
      rw [h]
      linarith [hc.2]
  · -- gear background circle
    apply not_inDisc_of_y
    simp only
    rcases hy with h | h <;> rw [h]
    · exact sq_lt_sq_of_abs _ _ hg0 (Or.inr (by linarith))
    · exact sq_lt_sq_of_abs _ _ hg0 (Or.inl (by linarith))
  · -- gear teeth
    rintro ⟨i, hi, hp⟩
    revert hp
    rcases hy with h | h
    · apply not_inPolygon_of_y_gt
      intro j hj
      have hc := abs_le.1 (BeautifulIcons.tooth_y_close S i j hg0)
      simp only
      rw [h]
      linarith [hc.1]
    · apply not_inPolygon_of_y_lt
      intro j hj
      have hc := abs_le.1 (BeautifulIcons.tooth_y_close S i j hg0)
      simp only
      rw [h]
      linarith [hc.2]
  · -- inner gear circle
    apply not_inDisc_of_y
    simp only
    rcases hy with h | h <;> rw [h]
    · exact sq_lt_sq_of_abs _ _ hi0 (Or.inr (by linarith))
    · exact sq_lt_sq_of_abs _ _ hi0 (Or.inl (by linarith))
  · -- plus background circle
    apply not_inDisc_of_y
    simp only
    rcases hy with h | h <;> rw [h]
    · exact sq_lt_sq_of_abs _ _ hpb0 (Or.inr (by linarith))
    · exact sq_lt_sq_of_abs _ _ hpb0 (Or.inl (by linarith))
  · -- horizontal plus bar
    intro hcon
    obtain ⟨-, -, h3, h4⟩ := hcon
    simp only at h3 h4
    rcases hy with h | h <;> rw [h] at h3 h4 <;> linarith
  · -- vertical plus bar
    intro hcon
    obtain ⟨-, -, h3, h4⟩ := hcon
    simp only at h3 h4
    rcases hy with h | h <;> rw [h] at h3 h4 <;> linarith
  · -- data dots
    exact BeautifulIcons.dot_far S hS _ _ hx hy

/-- Cast bundle: radius facts for the beautiful rounded mask. -/
theorem BeautifulIcons.radius_facts_beaut (S : ℕ) (hS : 20 ≤ S) :
    (2 : ℝ) ≤ (BeautifulIcons.corner_radius S : ℝ) ∧
    3 * (BeautifulIcons.corner_radius S : ℝ) < (S : ℝ) := by
  have hZ : 2 ≤ BeautifulIcons.corner_radius S ∧
      3 * BeautifulIcons.corner_radius S < (S : ℤ) := by
    unfold BeautifulIcons.corner_radius
    omega
  exact ⟨by exact_mod_cast hZ.1, by exact_mod_cast hZ.2⟩

/-- Safe corner pixels of a beautiful icon show the flat light-grey fill. -/
theorem BeautifulIcons.corner_px_beaut (S : ℕ) (hS : 20 ≤ S) (x y : ℕ)
    (hx : (x : ℝ) = 0 ∨ (x : ℝ) = (S : ℝ) - 1)
    (hy : (y : ℝ) = 0 ∨ (y : ℝ) = (S : ℝ) - 1)
    (hbr : ¬((x : ℝ) = (S : ℝ) - 1 ∧ (y : ℝ) = (S : ℝ) - 1) ∨
      4 ≤ (BeautifulIcons.corner_radius S : ℝ)) :
    BeautifulIcons.px S x y = ⟨248, 249, 250⟩ := by
  rw [BeautifulIcons.corner_reduce_beaut S hS x y hx hy, if_neg]
  exact corner_not_inRoundedSquare (S : ℝ) (BeautifulIcons.corner_radius S : ℝ) (x : ℝ) (y : ℝ)
    (BeautifulIcons.radius_facts_beaut S hS).1 (BeautifulIcons.radius_facts_beaut S hS).2 hx hy hbr

/-- Cast of a predecessor. -/
theorem cast_sub_one (S : ℕ) (h : 1 ≤ S) : ((S - 1 : ℕ) : ℝ) = (S : ℝ) - 1 := by
  rw [Nat.cast_sub h, Nat.cast_one]

/-- At size 20 the bottom-right corner of a `create_icons` icon is inside
the rounded mask, so it shows the gradient. -/
theorem CreateIcons.bottomRight_20 :
    CreateIcons.px 20 19 19 = CreateIcons.gradRow 20 19 := by
  have h3 : ((CreateIcons.corner_radius 20 : ℤ) : ℝ) = 3 := by
    norm_num [CreateIcons.corner_radius]
  have hmem : inRoundedSquare ((20 : ℕ) : ℝ) ((CreateIcons.corner_radius 20 : ℤ) : ℝ)
      (((19 : ℕ) : ℝ), ((19 : ℕ) : ℝ)) := by
    rw [h3, show ((((19 : ℕ) : ℝ)), (((19 : ℕ) : ℝ))) =
      (((20 : ℕ) : ℝ) - 1, ((20 : ℕ) : ℝ) - 1) by norm_num]
    exact bottomRight_inRoundedSquare _ 3 (by norm_num) (by norm_num) (by norm_num) (by norm_num)
  rw [CreateIcons.corner_reduce 20 (by norm_num) 19 19 (Or.inr (by norm_num))
    (Or.inr (by norm_num)), if_pos hmem]

/-- At size 20 the bottom-right corner of a beautiful icon is inside the
rounded mask, so it shows the gradient. -/
theorem BeautifulIcons.bottomRight_20_beaut :
    BeautifulIcons.px 20 19 19 = BeautifulIcons.gradRow 20 19 := by
  have h2 : ((BeautifulIcons.corner_radius 20 : ℤ) : ℝ) = 2 := by
    norm_num [BeautifulIcons.corner_radius]
  have hmem : inRoundedSquare ((20 : ℕ) : ℝ) ((BeautifulIcons.corner_radius 20 : ℤ) : ℝ)
      (((19 : ℕ) : ℝ), ((19 : ℕ) : ℝ)) := by
    rw [h2, show ((((19 : ℕ) : ℝ)), (((19 : ℕ) : ℝ))) =
      (((20 : ℕ) : ℝ) - 1, ((20 : ℕ) : ℝ) - 1) by norm_num]
    exact bottomRight_inRoundedSquare _ 2 (by norm_num) (by norm_num) (by norm_num) (by norm_num)
  rw [BeautifulIcons.corner_reduce_beaut 20 (by norm_num) 19 19 (Or.inr (by norm_num))
    (Or.inr (by norm_num)), if_pos hmem]

/-- At size 29 the bottom-right corner of a beautiful icon is inside the
rounded mask, so it shows the gradient. -/
theorem BeautifulIcons.bottomRight_29 :
    BeautifulIcons.px 29 28 28 = BeautifulIcons.gradRow 29 28 := by
  have h3 : ((BeautifulIcons.corner_radius 29 : ℤ) : ℝ) = 3 := by
    norm_num [BeautifulIcons.corner_radius]
  have hmem : inRoundedSquare ((29 : ℕ) : ℝ) ((BeautifulIcons.corner_radius 29 : ℤ) : ℝ)
      (((28 : ℕ) : ℝ), ((28 : ℕ) : ℝ)) := by
    rw [h3, show ((((28 : ℕ) : ℝ)), (((28 : ℕ) : ℝ))) =
      (((29 : ℕ) : ℝ) - 1, ((29 : ℕ) : ℝ) - 1) by norm_num]
    exact bottomRight_inRoundedSquare _ 3 (by norm_num) (by norm_num) (by norm_num) (by norm_num)
  rw [BeautifulIcons.corner_reduce_beaut 29 (by norm_num) 28 28 (Or.inr (by norm_num))
    (Or.inr (by norm_num)), if_pos hmem]

/-- C5 as stated is wrong: at catalog size 20 the bottom-right corner pixel
of the `create_icons` style shows the gradient colour (34,142,36), not the
flat white fill. -/
theorem claim_C5_counterexample : ¬claimC5 := by
  intro h
  have h20 : CreateIcons.px 20 19 19 = ⟨255, 255, 255⟩ := (h 20 (by decide)).2.2.2.2
  have hbad : CreateIcons.gradRow 20 19 = ⟨255, 255, 255⟩ := by
    rw [← CreateIcons.bottomRight_20]
    exact h20
  norm_num [CreateIcons.gradRow, pyInt] at hbad

/-- Amended C5: on every catalog size the three corners other than the
bottom-right one show the flat fill in both rounded styles; the
bottom-right corner shows the flat fill only once the corner radius
reaches 4 (catalog sizes at least 29 for `create_icons`, at least 40 for
`create_beautiful_icons`); at the small catalog sizes the bottom-right
corner pixel lies inside the rounded mask and shows the bottom gradient
row instead. -/
theorem claim_C5_amended :
    (∀ S ∈ catalog,
      (BeautifulIcons.px S 0 0 = ⟨248, 249, 250⟩ ∧
       BeautifulIcons.px S (S - 1) 0 = ⟨248, 249, 250⟩ ∧
       BeautifulIcons.px S 0 (S - 1) = ⟨248, 249, 250⟩) ∧
      (CreateIcons.px S 0 0 = ⟨255, 255, 255⟩ ∧
       CreateIcons.px S (S - 1) 0 = ⟨255, 255, 255⟩ ∧
       CreateIcons.px S 0 (S - 1) = ⟨255, 255, 255⟩)) ∧
    (∀ S ∈ catalog, 40 ≤ S → BeautifulIcons.px S (S - 1) (S - 1) = ⟨248, 249, 250⟩) ∧
    (∀ S ∈ catalog, 29 ≤ S → CreateIcons.px S (S - 1) (S - 1) = ⟨255, 255, 255⟩) ∧
    (CreateIcons.px 20 19 19 = CreateIcons.gradRow 20 19 ∧
      CreateIcons.gradRow 20 19 = ⟨34, 142, 36⟩) ∧
    (BeautifulIcons.px 20 19 19 = BeautifulIcons.gradRow 20 19 ∧
      BeautifulIcons.px 29 28 28 = BeautifulIcons.gradRow 29 28 ∧
      BeautifulIcons.gradRow 20 19 = ⟨230, 242, 230⟩ ∧
      BeautifulIcons.gradRow 29 28 = ⟨230, 242, 230⟩) := by
  refine ⟨?_, ?_, ?_, ⟨CreateIcons.bottomRight_20, ?_⟩,
    ⟨BeautifulIcons.bottomRight_20_beaut, BeautifulIcons.bottomRight_29, ?_, ?_⟩⟩
  · intro S hS
    have h20 : 20 ≤ S := by fin_cases hS <;> norm_num
    have hS20 : (20 : ℝ) ≤ (S : ℝ) := by exact_mod_cast h20
    have hc := cast_sub_one S (by omega)
    refine ⟨⟨?_, ?_, ?_⟩, ?_, ?_, ?_⟩
    · exact BeautifulIcons.corner_px_beaut S h20 0 0 (Or.inl Nat.cast_zero) (Or.inl Nat.cast_zero)
        (Or.inl (by rintro ⟨h1, -⟩; rw [Nat.cast_zero] at h1; linarith))
    · exact BeautifulIcons.corner_px_beaut S h20 (S - 1) 0 (Or.inr hc) (Or.inl Nat.cast_zero)
        (Or.inl (by rintro ⟨-, h2⟩; rw [Nat.cast_zero] at h2; linarith))
    · exact BeautifulIcons.corner_px_beaut S h20 0 (S - 1) (Or.inl Nat.cast_zero) (Or.inr hc)
        (Or.inl (by rintro ⟨h1, -⟩; rw [Nat.cast_zero] at h1; linarith))
    · exact CreateIcons.corner_px S h20 0 0 (Or.inl Nat.cast_zero) (Or.inl Nat.cast_zero)
        (Or.inl (by rintro ⟨h1, -⟩; rw [Nat.cast_zero] at h1; linarith))
    · exact CreateIcons.corner_px S h20 (S - 1) 0 (Or.inr hc) (Or.inl Nat.cast_zero)
        (Or.inl (by rintro ⟨-, h2⟩; rw [Nat.cast_zero] at h2; linarith))
    · exact CreateIcons.corner_px S h20 0 (S - 1) (Or.inl Nat.cast_zero) (Or.inr hc)
        (Or.inl (by rintro ⟨h1, -⟩; rw [Nat.cast_zero] at h1; linarith))
  · intro S hS h40
    have h20 : 20 ≤ S := by omega
    have hc := cast_sub_one S (by omega)
    have hr : (4 : ℝ) ≤ ((BeautifulIcons.corner_radius S : ℤ) : ℝ) := by
      have h4 : (4 : ℤ) ≤ BeautifulIcons.corner_radius S := by
        unfold BeautifulIcons.corner_radius
        omega
      exact_mod_cast h4
    exact BeautifulIcons.corner_px_beaut S h20 (S - 1) (S - 1) (Or.inr hc) (Or.inr hc) (Or.inr hr)
  · intro S hS h29
    have h20 : 20 ≤ S := by omega
    have hc := cast_sub_one S (by omega)
    have hr : (4 : ℝ) ≤ ((CreateIcons.corner_radius S : ℤ) : ℝ) := by
      have h4 : (4 : ℤ) ≤ CreateIcons.corner_radius S := by
        unfold CreateIcons.corner_radius
        omega
      exact_mod_cast h4
    exact CreateIcons.corner_px S h20 (S - 1) (S - 1) (Or.inr hc) (Or.inr hc) (Or.inr hr)
  · norm_num [CreateIcons.gradRow, pyInt]
  · norm_num [BeautifulIcons.gradRow, pyInt]
  · norm_num [BeautifulIcons.gradRow, pyInt]

/-- The amended C5 at concrete inputs: size 20 (a safe corner) and size 40
(the bottom-right corner, radius 5). -/
theorem claim_C5_amended_witness :
    20 ∈ catalog ∧ CreateIcons.px 20 0 0 = ⟨255, 255, 255⟩ ∧
    40 ∈ catalog ∧ 40 ≤ 40 ∧ BeautifulIcons.px 40 (40 - 1) (40 - 1) = ⟨248, 249, 250⟩ :=
  ⟨by decide, ((claim_C5_amended.1 20 (by decide)).2).1, by decide, le_refl 40,
    claim_C5_amended.2.1 40 (by decide) (le_refl 40)⟩

/-- The heart ordinate at the start of the parameter loop. -/
theorem heartYc_zero : heartYc 0 = -5 := by
  unfold heartYc
  norm_num [Real.cos_zero]

/-- The sample parameter as a real quotient. -/
theorem BeautifulIcons.t_bounds (j : ℕ) : BeautifulIcons.t j = (j : ℝ) / 20 := by
  unfold BeautifulIcons.t
  push_cast
  ring

/-- The layout constants of the beautiful icon at size 120, cast to ℝ. -/
theorem BeautifulIcons.c120 :
    ((BeautifulIcons.center_x 120 : ℤ) : ℝ) = 60 ∧
    ((BeautifulIcons.center_y 120 : ℤ) : ℝ) = 60 ∧
    ((BeautifulIcons.heart_size 120 : ℤ) : ℝ) = 40 ∧
    ((BeautifulIcons.shadow_offset 120 / 2 : ℤ) : ℝ) = 1 ∧
    ((BeautifulIcons.dot_distance 120 : ℤ) : ℝ) = 60 ∧
    ((BeautifulIcons.dot_radius 120 : ℤ) : ℝ) = 2 ∧
    ((BeautifulIcons.plus_x 120 : ℤ) : ℝ) = 80 ∧
    ((BeautifulIcons.plus_y 120 : ℤ) : ℝ) = 80 ∧
    ((BeautifulIcons.plus_thickness 120 / 2 : ℤ) : ℝ) = 1 ∧
    ((BeautifulIcons.plus_size 120 / 2 : ℤ) : ℝ) = 7 ∧
    ((BeautifulIcons.plus_bg_radius 120 : ℤ) : ℝ) = 9 ∧
    ((BeautifulIcons.gear_x 120 : ℤ) : ℝ) = 90 ∧
    ((BeautifulIcons.gear_y 120 : ℤ) : ℝ) = 30 ∧
    ((BeautifulIcons.gear_radius 120 : ℤ) : ℝ) = 10 ∧
    ((BeautifulIcons.inner_radius 120 : ℤ) : ℝ) = 5 := by
  refine ⟨?_, ?_, ?_, ?_, ?_, ?_, ?_, ?_, ?_, ?_, ?_, ?_, ?_, ?_, ?_⟩
  · rw [(by decide : BeautifulIcons.center_x 120 = 60)]; norm_num
  · rw [(by decide : BeautifulIcons.center_y 120 = 60)]; norm_num
  · rw [(by decide : BeautifulIcons.heart_size 120 = 40)]; norm_num
  · rw [(by decide : BeautifulIcons.shadow_offset 120 / 2 = 1)]; norm_num
  · rw [(by decide : BeautifulIcons.dot_distance 120 = 60)]; norm_num
  · rw [(by decide : BeautifulIcons.dot_radius 120 = 2)]; norm_num
  · rw [(by decide : BeautifulIcons.plus_x 120 = 80)]; norm_num
  · rw [(by decide : BeautifulIcons.plus_y 120 = 80)]; norm_num
  · rw [(by decide : BeautifulIcons.plus_thickness 120 / 2 = 1)]; norm_num
  · rw [(by decide : BeautifulIcons.plus_size 120 / 2 = 7)]; norm_num
  · rw [(by decide : BeautifulIcons.plus_bg_radius 120 = 9)]; norm_num
  · rw [(by decide : BeautifulIcons.gear_x 120 = 90)]; norm_num
  · rw [(by decide : BeautifulIcons.gear_y 120 = 30)]; norm_num
  · rw [(by decide : BeautifulIcons.gear_radius 120 = 10)]; norm_num
  · rw [(by decide : BeautifulIcons.inner_radius 120 = 5)]; norm_num

/-- Heart vertices 0–35 of the size-120 beautiful icon lie strictly below
the centre scan line. -/
theorem BeautifulIcons.heartPt120_below (j : ℕ) (hj : j ≤ 35) :
    (BeautifulIcons.heartPt 120 j).2 < 60 := by
  obtain ⟨-, e2, e3, -⟩ := BeautifulIcons.c120
  have hjr : ((j : ℕ) : ℝ) ≤ 35 := by exact_mod_cast hj
  have hneg : heartYc (BeautifulIcons.t j) < 0 := by
    apply heartYc_neg_zone
    · rw [BeautifulIcons.t_bounds]
      positivity
    · rw [BeautifulIcons.t_bounds]
      linarith
  unfold BeautifulIcons.heartPt
  simp only
  rw [e2, e3]
  linarith

/-- Heart vertices 36–63 of the size-120 beautiful icon lie strictly above
the centre scan line. -/
theorem BeautifulIcons.heartPt120_above (j : ℕ) (h1 : 36 ≤ j) (h2 : j ≤ 63) :
    60 < (BeautifulIcons.heartPt 120 j).2 := by
  obtain ⟨-, e2, e3, -⟩ := BeautifulIcons.c120
  have hl : (36 : ℝ) ≤ ((j : ℕ) : ℝ) := by exact_mod_cast h1
  have hu : ((j : ℕ) : ℝ) ≤ 63 := by exact_mod_cast h2
  have hpos : 0 < heartYc (BeautifulIcons.t j) := by
    apply heartYc_pos_zone
    · rw [BeautifulIcons.t_bounds]
      linarith
    · rw [BeautifulIcons.t_bounds]
      linarith
  unfold BeautifulIcons.heartPt
  simp only
  rw [e2, e3]
  linarith

/-- Heart vertices 63–125 of the size-120 beautiful icon lie weakly to the
left of the centre column. -/
theorem BeautifulIcons.heartPt120_left (j : ℕ) (h1 : 63 ≤ j) (h2 : j ≤ 125) :
    (BeautifulIcons.heartPt 120 j).1 ≤ 60 := by
  obtain ⟨e1, -, e3, -⟩ := BeautifulIcons.c120
  have hl : (63 : ℝ) ≤ ((j : ℕ) : ℝ) := by exact_mod_cast h1
  have hu : ((j : ℕ) : ℝ) ≤ 125 := by exact_mod_cast h2
  have hs : Real.sin (BeautifulIcons.t j) ≤ 0 :=
    sin_nonpos_zone _ (by rw [BeautifulIcons.t_bounds]; linarith)
      (by rw [BeautifulIcons.t_bounds]; linarith)
  unfold BeautifulIcons.heartPt heartXc
  simp only
  rw [e1, e3]
  nlinarith [sq_nonneg (Real.sin (BeautifulIcons.t j))]

/-- Heart vertex 0 of the size-120 beautiful icon sits exactly on the
centre column. -/
theorem BeautifulIcons.heartPt120_0x : (BeautifulIcons.heartPt 120 0).1 ≤ 60 := by
  obtain ⟨e1, -, e3, -⟩ := BeautifulIcons.c120
  have ht : BeautifulIcons.t 0 = 0 := by
    rw [BeautifulIcons.t_bounds]
    norm_num
  unfold BeautifulIcons.heartPt heartXc
  simp only
  rw [ht, Real.sin_zero, e1, e3]
  norm_num

/-- Heart vertex 35 of the size-120 beautiful icon lies strictly right of
the centre column. -/
theorem BeautifulIcons.heartPt120_35x : 60 < (BeautifulIcons.heartPt 120 35).1 := by
  obtain ⟨e1, -, e3, -⟩ := BeautifulIcons.c120
  have ht : BeautifulIcons.t 35 = 7 / 4 := by
    rw [BeautifulIcons.t_bounds]
    norm_num
  have hspos : 0 < Real.sin (7 / 4) :=
    Real.sin_pos_of_pos_of_lt_pi (by norm_num) (by linarith [Real.pi_gt_three])
  have h3 := pow_pos hspos 3
  unfold BeautifulIcons.heartPt heartXc
  simp only
  rw [ht, e1, e3]
  linarith

/-- Heart vertex 36 of the size-120 beautiful icon lies strictly right of
the centre column. -/
theorem BeautifulIcons.heartPt120_36x : 60 < (BeautifulIcons.heartPt 120 36).1 := by
  obtain ⟨e1, -, e3, -⟩ := BeautifulIcons.c120
  have ht : BeautifulIcons.t 36 = 9 / 5 := by
    rw [BeautifulIcons.t_bounds]
    norm_num
  have hspos : 0 < Real.sin (9 / 5) :=
    Real.sin_pos_of_pos_of_lt_pi (by norm_num) (by linarith [Real.pi_gt_three])
  have h3 := pow_pos hspos 3
  unfold BeautifulIcons.heartPt heartXc
  simp only
  rw [ht, e1, e3]
  linarith

/-- Highlight vertices 0–36 of the size-120 beautiful icon lie strictly
below the centre scan line. -/
theorem BeautifulIcons.hlPt120_below (j : ℕ) (hj : j ≤ 36) :
    (BeautifulIcons.highlightPt 120 j).2 < 60 := by
  obtain ⟨-, e2, e3, e4, -⟩ := BeautifulIcons.c120
  have hjr : ((j : ℕ) : ℝ) ≤ 36 := by exact_mod_cast hj
  have hhalf : heartYc (BeautifulIcons.t j) < 1 / 2 := by
    apply heartYc_lt_half_zone
    · rw [BeautifulIcons.t_bounds]
      positivity
    · rw [BeautifulIcons.t_bounds]
      linarith
  unfold BeautifulIcons.highlightPt BeautifulIcons.heartPt
  simp only
  rw [e2, e3, e4]
  linarith

/-- Highlight vertices 37–41 of the size-120 beautiful icon lie strictly
above the centre scan line. -/
theorem BeautifulIcons.hlPt120_above (j : ℕ) (h1 : 37 ≤ j) (h2 : j ≤ 41) :
    60 < (BeautifulIcons.highlightPt 120 j).2 := by
  obtain ⟨-, e2, e3, e4, -⟩ := BeautifulIcons.c120
  have hl : (37 : ℝ) ≤ ((j : ℕ) : ℝ) := by exact_mod_cast h1
  have hu : ((j : ℕ) : ℝ) ≤ 41 := by exact_mod_cast h2
  have hhalf : 1 / 2 < heartYc (BeautifulIcons.t j) := by
    apply heartYc_gt_half_zone
    · rw [BeautifulIcons.t_bounds]
      linarith
    · rw [BeautifulIcons.t_bounds]
      linarith
  unfold BeautifulIcons.highlightPt BeautifulIcons.heartPt
  simp only
  rw [e2, e3, e4]
  linarith

/-- Highlight vertex 36 of the size-120 beautiful icon lies strictly right
of the centre column. -/
theorem BeautifulIcons.hlPt120_36x : 60 < (BeautifulIcons.highlightPt 120 36).1 := by
  obtain ⟨e1, -, e3, e4, -⟩ := BeautifulIcons.c120
  have ht : BeautifulIcons.t 36 = 9 / 5 := by
    rw [BeautifulIcons.t_bounds]
    norm_num
  unfold BeautifulIcons.highlightPt BeautifulIcons.heartPt heartXc
  simp only
  rw [ht, e1, e3, e4]
  nlinarith [sin_18_lb, sq_nonneg (Real.sin (9 / 5) - 1 / 2), sq_nonneg (Real.sin (9 / 5) + 1 / 2),
    sq_nonneg (Real.sin (9 / 5))]

/-- Highlight vertex 37 of the size-120 beautiful icon lies strictly right
of the centre column. -/
theorem BeautifulIcons.hlPt120_37x : 60 < (BeautifulIcons.highlightPt 120 37).1 := by
  obtain ⟨e1, -, e3, e4, -⟩ := BeautifulIcons.c120
  have ht : BeautifulIcons.t 37 = 37 / 20 := by
    rw [BeautifulIcons.t_bounds]
    norm_num
  unfold BeautifulIcons.highlightPt BeautifulIcons.heartPt heartXc
  simp only
  rw [ht, e1, e3, e4]
  nlinarith [sin_185_lb, sq_nonneg (Real.sin (37 / 20) - 1 / 2),
    sq_nonneg (Real.sin (37 / 20) + 1 / 2), sq_nonneg (Real.sin (37 / 20))]

/-- Highlight vertex 0 of the size-120 beautiful icon, evaluated. -/
theorem BeautifulIcons.hl120_0vals :
    (BeautifulIcons.highlightPt 120 0).1 = 59 ∧ (BeautifulIcons.highlightPt 120 0).2 = 49 := by
  obtain ⟨e1, e2, e3, e4, -⟩ := BeautifulIcons.c120
  have ht : BeautifulIcons.t 0 = 0 := by
    rw [BeautifulIcons.t_bounds]
    norm_num
  unfold BeautifulIcons.highlightPt BeautifulIcons.heartPt heartXc
  simp only
  rw [ht, Real.sin_zero, heartYc_zero, e1, e2, e3, e4]
  constructor <;> norm_num

/-- Highlight vertex 41 of the size-120 beautiful icon: far right and not
too high. -/
theorem BeautifulIcons.hl120_41_facts :
    80 ≤ (BeautifulIcons.highlightPt 120 41).1 ∧ (BeautifulIcons.highlightPt 120 41).2 ≤ 69 := by
  obtain ⟨e1, e2, e3, e4, -⟩ := BeautifulIcons.c120
  have ht : BeautifulIcons.t 41 = 41 / 20 := by
    rw [BeautifulIcons.t_bounds]
    norm_num
  unfold BeautifulIcons.highlightPt BeautifulIcons.heartPt heartXc
  simp only
  rw [ht, e1, e2, e3, e4]
  constructor
  · nlinarith [sin_205_lb, sq_nonneg (Real.sin (41 / 20) - 87 / 100),
      sq_nonneg (Real.sin (41 / 20) + 87 / 100), sq_nonneg (Real.sin (41 / 20))]
  · linarith [heartYc_le_five_205]

/-- The centre pixel of the size-120 beautiful icon shows the heart
colour: the scan line through (60,60) crosses the heart polygon exactly
once (edge 35), misses every badge, and the highlight polygon is crossed
exactly twice (edges 36 and 41). -/
theorem BeautifulIcons.center_120 : BeautifulIcons.px 120 60 60 = BeautifulIcons.heart_color := by
  obtain ⟨e1, e2, e3, e4, e5, e6, e7, e8, e9, e10, e11, e12, e13, e14, e15⟩ :=
    BeautifulIcons.c120
  have hs3 : Real.sqrt 3 ^ 2 = 3 := Real.sq_sqrt (by norm_num)
  have hs30 : (0 : ℝ) ≤ Real.sqrt 3 := Real.sqrt_nonneg 3
  have hdots : ¬∃ k, k < 6 ∧ inDisc (BeautifulIcons.dotCenter 120 k)
      ((BeautifulIcons.dot_radius 120 : ℤ) : ℝ) ((60 : ℝ), 60) := by
    rintro ⟨k, hk, hd⟩
    rw [e6] at hd
    interval_cases k
    · rw [BeautifulIcons.dotCenter_0, e1, e2, e5] at hd
      unfold inDisc at hd
      simp only at hd
      nlinarith [hs3, hs30]
    · rw [BeautifulIcons.dotCenter_1, e1, e2, e5] at hd
      unfold inDisc at hd
      simp only at hd
      nlinarith [hs3, hs30]
    · rw [BeautifulIcons.dotCenter_2, e1, e2, e5] at hd
      unfold inDisc at hd
      simp only at hd
      nlinarith [hs3, hs30]
    · rw [BeautifulIcons.dotCenter_3, e1, e2, e5] at hd
      unfold inDisc at hd
      simp only at hd
      nlinarith [hs3, hs30]
    · rw [BeautifulIcons.dotCenter_4, e1, e2, e5] at hd
      unfold inDisc at hd
      simp only at hd
      nlinarith [hs3, hs30]
    · rw [BeautifulIcons.dotCenter_5, e1, e2, e5] at hd
      unfold inDisc at hd
      simp only at hd
      nlinarith [hs3, hs30]
  have hvert : ¬inRect (((BeautifulIcons.plus_x 120 : ℤ) : ℝ) -
        ((BeautifulIcons.plus_thickness 120 / 2 : ℤ) : ℝ))
      (((BeautifulIcons.plus_y 120 : ℤ) : ℝ) - ((BeautifulIcons.plus_size 120 / 2 : ℤ) : ℝ))
      (((BeautifulIcons.plus_x 120 : ℤ) : ℝ) + ((BeautifulIcons.plus_thickness 120 / 2 : ℤ) : ℝ))
      (((BeautifulIcons.plus_y 120 : ℤ) : ℝ) + ((BeautifulIcons.plus_size 120 / 2 : ℤ) : ℝ))
      ((60 : ℝ), 60) := by
    intro hcon
    obtain ⟨h1, -, -, -⟩ := hcon
    simp only at h1
    rw [e7, e9] at h1
    linarith
  have hhoriz : ¬inRect (((BeautifulIcons.plus_x 120 : ℤ) : ℝ) -
        ((BeautifulIcons.plus_size 120 / 2 : ℤ) : ℝ))
      (((BeautifulIcons.plus_y 120 : ℤ) : ℝ) - ((BeautifulIcons.plus_thickness 120 / 2 : ℤ) : ℝ))
      (((BeautifulIcons.plus_x 120 : ℤ) : ℝ) + ((BeautifulIcons.plus_size 120 / 2 : ℤ) : ℝ))
      (((BeautifulIcons.plus_y 120 : ℤ) : ℝ) + ((BeautifulIcons.plus_thickness 120 / 2 : ℤ) : ℝ))
      ((60 : ℝ), 60) := by
    intro hcon
    obtain ⟨h1, -, -, -⟩ := hcon
    simp only at h1
    rw [e7, e10] at h1
    linarith
  have hplusc : ¬inDisc (((BeautifulIcons.plus_x 120 : ℤ) : ℝ),
      ((BeautifulIcons.plus_y 120 : ℤ) : ℝ)) ((BeautifulIcons.plus_bg_radius 120 : ℤ) : ℝ)
      ((60 : ℝ), 60) := by
    apply not_inDisc_of_x
    simp only
    rw [e7, e11]
    norm_num
  have hinner : ¬inDisc (((BeautifulIcons.gear_x 120 : ℤ) : ℝ),
      ((BeautifulIcons.gear_y 120 : ℤ) : ℝ)) ((BeautifulIcons.inner_radius 120 : ℤ) : ℝ)
      ((60 : ℝ), 60) := by
    apply not_inDisc_of_x
    simp only
    rw [e12, e15]
    norm_num
  have hteeth : ¬∃ i, i < 8 ∧ inPolygon (BeautifulIcons.toothPt 120 i) 3 ((60 : ℝ), 60) := by
    rintro ⟨i, hi, hp⟩
    revert hp
    apply not_inPolygon_of_y_lt
    intro j hj
    have hg0 : (0 : ℝ) ≤ ((BeautifulIcons.gear_radius 120 : ℤ) : ℝ) := by
      rw [e14]
      norm_num
    have hc := abs_le.1 (BeautifulIcons.tooth_y_close 120 i j hg0)
    rw [e13, e14] at hc
    simp only
    linarith [hc.2]
  have hgearc : ¬inDisc (((BeautifulIcons.gear_x 120 : ℤ) : ℝ),
      ((BeautifulIcons.gear_y 120 : ℤ) : ℝ)) ((BeautifulIcons.gear_radius 120 : ℤ) : ℝ)
      ((60 : ℝ), 60) := by
    apply not_inDisc_of_x
    simp only
    rw [e12, e14]
    norm_num
  have hhl : ¬inPolygon (BeautifulIcons.highlightPt 120) 42 ((60 : ℝ), 60) := by
    apply not_inPolygon_of_pair _ _ _ 36 41 (by norm_num) (by norm_num) (by norm_num)
    intro i hi
    constructor
    · intro hr
      by_contra hne
      push_neg at hne
      obtain ⟨hne36, hne41⟩ := hne
      have hcase : i ≤ 35 ∨ (37 ≤ i ∧ i ≤ 40) := by omega
      rcases hcase with hc | hc
      · rw [show (i + 1) % 42 = i + 1 from Nat.mod_eq_of_lt (by omega)] at hr
        exact not_rayHits_of_lt _ _ _ (BeautifulIcons.hlPt120_below i (by omega))
          (BeautifulIcons.hlPt120_below (i + 1) (by omega)) hr
      · rw [show (i + 1) % 42 = i + 1 from Nat.mod_eq_of_lt (by omega)] at hr
        exact not_rayHits_of_gt _ _ _
          (BeautifulIcons.hlPt120_above i (by omega) (by omega))
          (BeautifulIcons.hlPt120_above (i + 1) (by omega) (by omega)) hr
    · rintro (rfl | rfl)
      · rw [show (36 + 1) % 42 = 37 from by norm_num]
        exact rayHits_of_x_gt _ _ _
          (Or.inl ⟨le_of_lt (BeautifulIcons.hlPt120_below 36 (by norm_num)),
            BeautifulIcons.hlPt120_above 37 (by norm_num) (by norm_num)⟩)
          BeautifulIcons.hlPt120_36x BeautifulIcons.hlPt120_37x
      · rw [show (41 + 1) % 42 = 0 from by norm_num]
        have hb1 := BeautifulIcons.hl120_0vals.1
        have hb2 := BeautifulIcons.hl120_0vals.2
        have ha1 := BeautifulIcons.hl120_41_facts.1
        have ha2a := BeautifulIcons.hlPt120_above 41 (by norm_num) (by norm_num)
        have ha2b := BeautifulIcons.hl120_41_facts.2
        refine ⟨Or.inr ⟨by rw [hb2]; norm_num, ha2a⟩, ?_⟩
        unfold xCross
        simp only
        rw [hb1, hb2]
        have hden : (49 : ℝ) - (BeautifulIcons.highlightPt 120 41).2 < 0 := by linarith
        have key : 60 - (BeautifulIcons.highlightPt 120 41).1 <
            (60 - (BeautifulIcons.highlightPt 120 41).2) *
              (59 - (BeautifulIcons.highlightPt 120 41).1) /
              (49 - (BeautifulIcons.highlightPt 120 41).2) := by
          rw [lt_div_iff_of_neg hden]
          nlinarith
        linarith
  have hheart : inPolygon (BeautifulIcons.heartPt 120) 126 ((60 : ℝ), 60) := by
    apply inPolygon_of_unique _ _ _ 35 (by norm_num)
    intro i hi
    constructor
    · intro hr
      by_contra hne
      have hcase : i ≤ 34 ∨ (36 ≤ i ∧ i ≤ 62) ∨ (63 ≤ i ∧ i ≤ 124) ∨ i = 125 := by omega
      rcases hcase with hc | hc | hc | rfl
      · rw [show (i + 1) % 126 = i + 1 from Nat.mod_eq_of_lt (by omega)] at hr
        exact not_rayHits_of_lt _ _ _ (BeautifulIcons.heartPt120_below i (by omega))
          (BeautifulIcons.heartPt120_below (i + 1) (by omega)) hr
      · rw [show (i + 1) % 126 = i + 1 from Nat.mod_eq_of_lt (by omega)] at hr
        exact not_rayHits_of_gt _ _ _
          (BeautifulIcons.heartPt120_above i (by omega) (by omega))
          (BeautifulIcons.heartPt120_above (i + 1) (by omega) (by omega)) hr
      · rw [show (i + 1) % 126 = i + 1 from Nat.mod_eq_of_lt (by omega)] at hr
        exact not_rayHits_of_x_le _ _ _
          (BeautifulIcons.heartPt120_left i (by omega) (by omega))
          (BeautifulIcons.heartPt120_left (i + 1) (by omega) (by omega)) hr
      · rw [show (125 + 1) % 126 = 0 from by norm_num] at hr
        exact not_rayHits_of_x_le _ _ _
          (BeautifulIcons.heartPt120_left 125 (by norm_num) (by norm_num))
          BeautifulIcons.heartPt120_0x hr
    · rintro rfl
      rw [show (35 + 1) % 126 = 36 from by norm_num]
      exact rayHits_of_x_gt _ _ _
        (Or.inl ⟨le_of_lt (BeautifulIcons.heartPt120_below 35 (by norm_num)),
          BeautifulIcons.heartPt120_above 36 (by norm_num) (by norm_num)⟩)
        BeautifulIcons.heartPt120_35x BeautifulIcons.heartPt120_36x
  simp only [BeautifulIcons.px]
  rw [(by norm_num : ((60 : ℕ) : ℝ) = (60 : ℝ))]
  rw [if_neg hdots, if_neg hvert, if_neg hhoriz, if_neg hplusc, if_neg hinner, if_neg hteeth,
    if_neg hgearc, if_neg hhl, if_pos hheart]

/-- Claim C8: rendering size 120 with the heart-plus-gear style yields a
120-by-120 RGB image (no alpha) whose centre pixel (60,60) is the heart
colour (52,199,89) and whose four corner pixels are the flat light-grey
background fill (248,249,250). -/
theorem claim_C8 :
    BeautifulIcons.render 120 = .ok (BeautifulIcons.icon 120) ∧
    (BeautifulIcons.icon 120).width = 120 ∧ (BeautifulIcons.icon 120).height = 120 ∧
    (BeautifulIcons.icon 120).mode = .RGB ∧ (BeautifulIcons.icon 120).hasAlpha = false ∧
    BeautifulIcons.px 120 60 60 = ⟨52, 199, 89⟩ ∧
    BeautifulIcons.px 120 0 0 = ⟨248, 249, 250⟩ ∧
    BeautifulIcons.px 120 119 0 = ⟨248, 249, 250⟩ ∧
    BeautifulIcons.px 120 0 119 = ⟨248, 249, 250⟩ ∧
    BeautifulIcons.px 120 119 119 = ⟨248, 249, 250⟩ := by
  have hr4 : (4 : ℝ) ≤ ((BeautifulIcons.corner_radius 120 : ℤ) : ℝ) := by
    rw [(by decide : BeautifulIcons.corner_radius 120 = 15)]
    norm_num
  have h119 : ((119 : ℕ) : ℝ) = ((120 : ℕ) : ℝ) - 1 := by norm_num
  refine ⟨BeautifulIcons.render_ok_beaut 120 (by norm_num), rfl, rfl, rfl, rfl,
    BeautifulIcons.center_120.trans rfl, ?_, ?_, ?_, ?_⟩
  · exact BeautifulIcons.corner_px_beaut 120 (by norm_num) 0 0 (Or.inl Nat.cast_zero)
      (Or.inl Nat.cast_zero) (Or.inr hr4)
  · exact BeautifulIcons.corner_px_beaut 120 (by norm_num) 119 0 (Or.inr h119)
      (Or.inl Nat.cast_zero) (Or.inr hr4)
  · exact BeautifulIcons.corner_px_beaut 120 (by norm_num) 0 119 (Or.inl Nat.cast_zero)
      (Or.inr h119) (Or.inr hr4)
  · exact BeautifulIcons.corner_px_beaut 120 (by norm_num) 119 119 (Or.inr h119)
      (Or.inr h119) (Or.inr hr4)

end HealthIcons
